import Mathlib

/-!
Verification development for the Zepto order-automation service
(`src/main.py`, a FastAPI endpoint driving a browser via Playwright).

The Python program is shallowly embedded: every external effect
(subprocess calls, selector waits, navigations, clicks, screenshots)
is resolved by an explicit environment (oracle) value, and exceptions
are explicit values.  Python `Exception`s are modelled by `Exc`;
`sys.exit()` raises `SystemExit`, which derives from `BaseException`
and is therefore NOT caught by the `except Exception` handlers in the
source — it is modelled as a distinct terminal outcome.
-/

set_option maxHeartbeats 1000000

namespace ZeptoModel

/-- A Python exception value: either a `fastapi.HTTPException` (status
code plus detail string) or a generic exception with a message. -/
inductive Exc where
  | http (status : Nat) (detail : String)
  | py (msg : String)
deriving DecidableEq, Repr

/-- `str(e)` for an exception: starlette's `HTTPException.__str__`
renders as `f"{status_code}: {detail}"`; a generic exception renders
its message. -/
def excStr : Exc → String
  | .http s d => toString s ++ ": " ++ d
  | .py m => m

/-- Result of a Playwright `wait_for_selector` (or `is_visible`) call:
the element is found (truthy), the call returns `None` (falsy), or the
call raises (e.g. `TimeoutError`). -/
inductive WaitRes where
  | found
  | absent
  | err
deriving DecidableEq, Repr

/-! ## Model of the `urllib.parse` functions used by `open_cart`
(lines 106-124): `urlparse`, `parse_qs`, `urlencode` with
`doseq=True`, whose encoder is `quote_plus`.

Strings are handled as `List Char`.  Python decodes percent-escapes as
UTF-8 bytes; this model treats each byte as one character (Latin-1),
which coincides with Python on ASCII data and produces the same
re-encoded strings on single-byte data; theorems about decoded
parameters carry a `< 256` character bound marking that modelling
boundary. -/

/-- The sixteen upper-case hex digits, as used by `urllib.parse.quote`. -/
def hexChars : List Char :=
  ['0', '1', '2', '3', '4', '5', '6', '7', '8', '9', 'A', 'B', 'C', 'D', 'E', 'F']

/-- `n`-th upper-case hex digit. -/
def hexDig (n : Nat) : Char := hexChars.getD n '0'

/-- Is `c` a hex digit (either case), as accepted by
`urllib.parse.unquote`?  The bounds are the code points of
`0`-`9` (48-57), `a`-`f` (97-102) and `A`-`F` (65-70). -/
def isHexChar (c : Char) : Bool :=
  (48 ≤ c.toNat && c.toNat ≤ 57) || (97 ≤ c.toNat && c.toNat ≤ 102) ||
    (65 ≤ c.toNat && c.toNat ≤ 70)

/-- Numeric value of a hex digit (0 for non-digits; only used under
`isHexChar`). -/
def hexVal (c : Char) : Nat :=
  if 48 ≤ c.toNat && c.toNat ≤ 57 then c.toNat - 48
  else if 97 ≤ c.toNat && c.toNat ≤ 102 then c.toNat - 97 + 10
  else if 65 ≤ c.toNat && c.toNat ≤ 70 then c.toNat - 65 + 10
  else 0

/-- Characters `urllib.parse.quote` never encodes (`_ALWAYS_SAFE`):
ASCII letters (65-90, 97-122), digits (48-57), and `_.-~` (the `safe`
argument is `''` when called from `urlencode` via `quote_plus`). -/
def isSafeChar (c : Char) : Bool :=
  (65 ≤ c.toNat && c.toNat ≤ 90) || (97 ≤ c.toNat && c.toNat ≤ 122) ||
    (48 ≤ c.toNat && c.toNat ≤ 57) ||
    c = '_' || c = '.' || c = '-' || c = '~'

/-- `quote_plus` on a single character: space becomes `+`, safe
characters pass through, everything else becomes `%XX`. -/
def quoteChar (c : Char) : List Char :=
  if c = ' ' then ['+']
  else if isSafeChar c then [c]
  else ['%', hexDig (c.toNat / 16 % 16), hexDig (c.toNat % 16)]

/-- `urllib.parse.quote_plus` with `safe=''` (the form `urlencode` uses). -/
def quote_plus : List Char → List Char
  | [] => []
  | c :: cs => quoteChar c ++ quote_plus cs

/-- The `.replace('+', ' ')` step of `unquote_plus`. -/
def replacePlus (s : List Char) : List Char :=
  s.map fun c => if c = '+' then ' ' else c

/-- Step-bounded core of `urllib.parse.unquote`: decode `%XX` escapes,
leaving invalid escapes untouched (after an invalid escape, scanning
resumes at the character following the `%`, as Python's split-on-`%`
loop does).  The counter is only a structural-recursion device: every
step consumes at least one character, so with the list's length as the
initial counter it never reaches zero early. -/
def unquoteFuel : Nat → List Char → List Char
  | 0, s => s
  | f + 1, s =>
    match s with
    | [] => []
    | c :: rest =>
      if c = '%' then
        match rest with
        | h1 :: h2 :: rest2 =>
          if isHexChar h1 && isHexChar h2 then
            Char.ofNat (16 * hexVal h1 + hexVal h2) :: unquoteFuel f rest2
          else c :: unquoteFuel f (h1 :: h2 :: rest2)
        | _ => c :: unquoteFuel f rest
      else c :: unquoteFuel f rest

/-- `urllib.parse.unquote`. -/
def unquote (s : List Char) : List Char := unquoteFuel s.length s

/-- `urllib.parse.unquote_plus`: replace `+` by space, then unquote. -/
def unquote_plus (s : List Char) : List Char := unquote (replacePlus s)

/-- `str.split('&')`, as `parse_qsl` performs on the query string. -/
def splitAmp : List Char → List (List Char)
  | [] => [[]]
  | c :: rest =>
    if c = '&' then [] :: splitAmp rest
    else
      match splitAmp rest with
      | s :: ss => (c :: s) :: ss
      | [] => [[c]]

/-- `str.split('=', 1)` when it yields two parts, `none` when the
separator is absent. -/
def splitFirstEq : List Char → Option (List Char × List Char)
  | [] => none
  | c :: rest =>
    if c = '=' then some ([], rest)
    else
      match splitFirstEq rest with
      | some (k, v) => some (c :: k, v)
      | none => none

/-- One `name=value` segment of `parse_qsl` with the default
`keep_blank_values=False`: empty segments, segments without `=`, and
segments with an empty value part are all dropped; kept names and
values are decoded with `unquote_plus`. -/
def segParse (seg : List Char) : Option (String × String) :=
  if seg = [] then none
  else
    match splitFirstEq seg with
    | none => none
    | some (k, v) =>
      if v = [] then none
      else some (String.mk (unquote_plus k), String.mk (unquote_plus v))

/-- `urllib.parse.parse_qsl` with default arguments. -/
def parse_qsl (q : List Char) : List (String × String) :=
  (splitAmp q).filterMap segParse

/-- One step of `parse_qs`'s dict aggregation: append the value at an
existing key (keeping its position) or add a new key at the end. -/
def addPair : List (String × List String) → String × String → List (String × List String)
  | [], (k, v) => [(k, [v])]
  | (k0, vs) :: rest, (k, v) =>
    if k0 = k then (k0, vs ++ [v]) :: rest else (k0, vs) :: addPair rest (k, v)

/-- `urllib.parse.parse_qs`: aggregate the `parse_qsl` pairs into a
mapping from names to value lists; Python's dict is modelled as an
association list in insertion order. -/
def parse_qs (q : List Char) : List (String × List String) :=
  (parse_qsl q).foldl addPair []

/-- `params['cart'] = ['open']` on the dict model: overwrite in place
if present, append at the end otherwise. -/
def setParam : List (String × List String) → String → List String → List (String × List String)
  | [], k, vs => [(k, vs)]
  | (k0, vs0) :: rest, k, vs =>
    if k0 = k then (k0, vs) :: rest else (k0, vs0) :: setParam rest k vs

/-- The `k=v` segments `urlencode(params, doseq=True)` produces, in
order: for each key, one segment per value. -/
def encPairs : List (String × List String) → List (List Char)
  | [] => []
  | (k, vs) :: rest =>
    vs.map (fun v => quote_plus k.data ++ '=' :: quote_plus v.data) ++ encPairs rest

/-- `'&'.join` of the segments. -/
def joinAmp : List (List Char) → List Char
  | [] => []
  | [s] => s
  | s :: rest => s ++ '&' :: joinAmp rest

/-- `urllib.parse.urlencode(params, doseq=True)`. -/
def urlencode (m : List (String × List String)) : String :=
  String.mk (joinAmp (encPairs m))

/-- The `(name, value)` pairs listed by a parameter dict, one per
value, in dict order — exactly the pairs `urlencode(…, doseq=True)`
writes out. -/
def flatPairs : List (String × List String) → List (String × String)
  | [] => []
  | (k, vs) :: rest => vs.map (fun v => (k, v)) ++ flatPairs rest

/-- The keys of a parameter dict, in order. -/
def keysOf (m : List (String × List String)) : List String := m.map Prod.fst

/-- All characters of a parameter's name and values fit in one byte —
the boundary inside which this Latin-1 byte model of
`unquote`/`quote_plus` agrees with Python's byte-level coding. -/
def pairLatin1 (kv : String × List String) : Prop :=
  (∀ c ∈ kv.1.data, c.toNat < 256) ∧ ∀ v ∈ kv.2, ∀ c ∈ v.data, c.toNat < 256

instance (kv : String × List String) : Decidable (pairLatin1 kv) := by
  unfold pairLatin1
  infer_instance

/-- A parsed URL as produced by `urlparse`: the five components
`open_cart` reads (`params` attribute unused by the source). -/
structure Url where
  scheme : String
  netloc : String
  path : String
  query : String
  fragment : String
deriving DecidableEq, Repr

/-- The URL string `open_cart` builds (line 116):
`f"{scheme}://{netloc}{path}?{new_query}"` with
`new_query = urlencode(params, doseq=True)` and
`params = parse_qs(query)` updated with `params['cart'] = ['open']`.
The fragment of the current URL does not appear. -/
def open_cart_url (u : Url) : String :=
  u.scheme ++ "://" ++ u.netloc ++ u.path ++ "?" ++
    urlencode (setParam (parse_qs u.query.data) "cart" ["open"])

/-- `open_cart` (lines 106-124): computes the cart URL, navigates to
it and waits; returns `True` on success and `False` if any step raises
(`gotoOk` resolves `page.goto`, `waitOk` resolves `wait_for_timeout`). -/
def open_cart (u : Url) (gotoOk waitOk : Bool) : Bool :=
  let _cartUrl := open_cart_url u
  gotoOk && waitOk

/-! ## Request model (lines 31-33)

`OrderRequest(BaseModel)` with `products: List[str]` and
`upi_id: Optional[str] = "your.upi@provider"`. -/

structure OrderRequest where
  products : List String
  upi_id : Option String
deriving DecidableEq, Repr

/-- A JSON value, for modelling request-body validation. -/
inductive Json where
  | str (s : String)
  | num (n : Int)
  | jbool (b : Bool)
  | jnull
  | arr (xs : List Json)
  | obj (kvs : List (String × Json))

/-- First binding of a key in a JSON object. -/
def lookupKey : List (String × Json) → String → Option Json
  | [], _ => none
  | (k, v) :: rest, key => if k = key then some v else lookupKey rest key

/-- A JSON array whose members are all strings, as `List[str]` requires. -/
def asStrList : List Json → Option (List String)
  | [] => some []
  | Json.str s :: rest => (asStrList rest).map (fun l => s :: l)
  | _ => none

/-- Pydantic validation of `OrderRequest` (lines 31-33): `products` is
required and must be a list of strings; `upi_id` is optional — absent
means the declared default `"your.upi@provider"`, an explicit JSON
null means `None` (the `Optional[str]` annotation), a string is taken
as given; unknown keys are ignored. -/
def validateOrderRequest (j : Json) : Option OrderRequest :=
  match j with
  | .obj kvs =>
    match lookupKey kvs "products" with
    | some (.arr xs) =>
      match asStrList xs with
      | some ps =>
        match lookupKey kvs "upi_id" with
        | none => some ⟨ps, some "your.upi@provider"⟩
        | some (.str u) => some ⟨ps, some u⟩
        | some .jnull => some ⟨ps, none⟩
        | some _ => none
      | none => none
    | _ => none
  | _ => none

/-! ## `handle_popups` (lines 35-80) -/

/-- The popup selectors tried in order (lines 39-52). -/
def popup_selectors : List String :=
  ["div[style*=\"cart_supersaver_prominent_nudge_bg.png\"] button",
   "button:has(svg path[stroke=\"#fff\"])",
   "button:has-text(\"✕\")",
   "div[role=\"dialog\"]",
   ".modal",
   "[class*=\"popup\"]",
   "[class*=\"modal\"]",
   ".Super-Saver",
   "[class*=\"super-saver\"]"]

/-- Environment for one selector iteration of `handle_popups`. -/
structure PopupSelEnv where
  wait : WaitRes     -- wait_for_selector(selector, timeout=2000)
  clickOk : Bool     -- popup.click()
  escOk : Bool       -- page.keyboard.press('Escape')
  timeoutOk : Bool   -- page.wait_for_timeout(500)
  visRes : WaitRes   -- popup.is_visible()

/-- `try: x except Exception: h` where the handler discards the
exception value. -/
def tryEx (x : Except Exc Unit) (h : Except Exc Unit) : Except Exc Unit :=
  match x with
  | .ok _ => .ok ()
  | .error _ => h

/-- The body of one iteration of the selector loop (lines 55-76),
without the per-selector `except Exception: continue`. -/
def popupIterBody (e : PopupSelEnv) : Except Exc Unit :=
  match e.wait with
  | .err => .error (.py "wait_for_selector raised")
  | .absent => .ok ()   -- popup is None, so `if popup:` skips the block
  | .found =>
    -- lines 60-66: try popup.click(); on failure press Escape, whose own
    -- failure propagates to the per-selector handler
    let clickStep : Except Exc Unit :=
      if e.clickOk then .ok ()
      else if e.escOk then .ok ()
      else .error (.py "keyboard.press raised")
    match clickStep with
    | .error ex => .error ex
    | .ok _ =>
      if !e.timeoutOk then .error (.py "wait_for_timeout raised")
      else
        -- lines 71-76: is_visible in its own try; a raise is caught there
        -- and only logged, visibility only triggers a warning log
        match e.visRes with
        | _ => .ok ()

/-- One iteration of the selector loop with its handler (line 77-78:
`except Exception: continue`). -/
def popupIter (e : PopupSelEnv) : Except Exc Unit :=
  tryEx (popupIterBody e) (.ok ())

/-- The selector loop (lines 54-78). -/
def popupLoop (env : Nat → PopupSelEnv) : List String → Nat → Except Exc Unit
  | [], _ => .ok ()
  | _ :: rest, i =>
    match popupIter (env i) with
    | .ok _ => popupLoop env rest (i + 1)
    | .error e => .error e

/-- `handle_popups` (lines 35-80): the selector loop wrapped in the
outer `try ... except Exception as e: logger.warning(...)`. -/
def handle_popups (env : Nat → PopupSelEnv) : Except Exc Unit :=
  tryEx (popupLoop env popup_selectors 0) (.ok ())

/-! ## `find_add_to_cart_button` (lines 82-104) -/

/-- `find_add_to_cart_button`: the two selectors of lines 90-93 tried
in order; a raise (timeout) or a `None` result both fall through to
the next selector, and `None` is returned after the loop.  `sel k`
resolves the wait on the `k`-th selector; the result is whether a
button handle was obtained. -/
def find_add_to_cart_button (sel : Nat → WaitRes) : Bool :=
  if sel 0 = WaitRes.found then true
  else if sel 1 = WaitRes.found then true
  else false

/-! ## `ensure_chrome_running` (lines 138-192) and `is_chrome_running` -/

/-- Environment for one call to `ensure_chrome_running`. -/
structure ChromeEnv where
  initialRunning : Bool     -- is_chrome_running() at line 143
  platformSupported : Bool  -- platform.system() is Darwin, Windows or Linux
  spawnOk : Bool            -- the pkill and Popen calls do not raise
  poll : Nat → Bool         -- is_chrome_running() inside the wait loop (line 183)

/-- The startup wait loop of lines 179-185: at most `fuel` polls of the
debugging port, each preceded by `time.sleep(2)`; `i` counts polls
already performed; returns success and the total number of polls. -/
def waitLoop (poll : Nat → Bool) : Nat → Nat → Bool × Nat
  | i, 0 => (false, i)
  | i, fuel + 1 => if poll i then (true, i + 1) else waitLoop poll (i + 1) fuel

/-- `ensure_chrome_running`: `True` immediately when Chrome already
answers on the debugging port; otherwise kill and spawn Chrome and
poll up to `max_retries = 10` times (line 179); unsupported platforms
and exceptions yield `False`.  Returns the result and the number of
wait-loop polls performed. -/
def ensure_chrome_running (e : ChromeEnv) : Bool × Nat :=
  if e.initialRunning then (true, 0)
  else if !e.platformSupported then (false, 0)
  else if !e.spawnOk then (false, 0)
  else waitLoop e.poll 0 10

/-! ## `enter_upi_and_pay` (lines 194-238) -/

/-- The four Verify-and-Pay selectors of lines 212-217. -/
def verify_button_selectors : List String :=
  ["div[testid=\"msg_text\"]:has-text(\"Verify and Pay\")",
   "article:has-text(\"Verify and Pay\")",
   "div.textView:has-text(\"Verify and Pay\")",
   "div[id=\"10000258\"]"]

/-- Environment for one call to `enter_upi_and_pay`. -/
structure UpiEnv where
  upiInput : WaitRes      -- wait_for_selector('input[testid="edt_vpa"]')
  inputClickOk : Bool     -- upi_input.click()
  fillOk : Bool           -- upi_input.fill(upi_id)
  verifySel : Nat → WaitRes  -- the waits on the four Verify-and-Pay selectors
  verifyClickOk : Bool    -- verify_button.click()

/-- The Verify-and-Pay selector loop (lines 219-227): the button is
obtained iff some selector wait yields an element (raises and `None`
results both continue). -/
def findVerifyButton (sel : Nat → WaitRes) : Bool :=
  if sel 0 = WaitRes.found then true
  else if sel 1 = WaitRes.found then true
  else if sel 2 = WaitRes.found then true
  else if sel 3 = WaitRes.found then true
  else false

/-- Narration events of the browser automation, used to state ordering
properties of runs. -/
inductive Ev where
  | ensureChrome (call : Nat) (ok : Bool)
  | connectTry (attempt : Nat) (ok : Bool)
  | searchNav (i : Nat) (product : String)
  | popups
  | findBtn (i : Nat) (found : Bool)
  | shot (path : String)
  | clickAdd (i : Nat)
  | payWait (i : Nat) (r : WaitRes)
  | clickPay (i : Nat)
  | upiWaitEv (i : Nat)
  | selectUpi (i : Nat)
  | sysExitEv
  | fillUpi (upi : String)
  | clickVerifyPay
  | openCartEv (url : String)
deriving DecidableEq, Repr

/-- `enter_upi_and_pay` (lines 194-238): fill the UPI id into the
payment input, then find and click Verify and Pay; returns `True` after
the click; every exception — including the two explicit raises — is
caught by the handler at line 236, which returns `False`.  Also
returns the events performed. -/
def enter_upi_and_pay (e : UpiEnv) (upi : String) : Bool × List Ev :=
  match e.upiInput with
  | .err => (false, [])          -- the wait raised; caught at 236
  | .absent => (false, [])       -- line 200: `if not upi_input: raise`; caught at 236
  | .found =>
    if !e.inputClickOk then (false, [])
    else if !e.fillOk then (false, [])
    else
      if findVerifyButton e.verifySel then
        if e.verifyClickOk then (true, [Ev.fillUpi upi, Ev.clickVerifyPay])
        else (false, [Ev.fillUpi upi])
      else (false, [Ev.fillUpi upi])  -- line 234: raise; caught at 236

/-! ## The endpoint `create_order` (lines 240-417) -/

/-- Environment/oracle for one request: resolves every external effect
the endpoint performs.  Per-product oracles are indexed by the
product's position in the request. -/
structure Env where
  chrome : Nat → ChromeEnv   -- successive ensure_chrome_running calls
  connectOk : Nat → Bool     -- connect_over_cdp attempts (lines 263-283)
  orderId : String           -- datetime.now().strftime(...) at line 242
  navOk : Nat → Bool         -- page.goto(search_url) per product
  findSel : Nat → Nat → WaitRes  -- find_add_to_cart_button waits per product
  shot1Ok : Nat → Bool       -- screenshot before click
  clickAddOk : Nat → Bool    -- add_to_cart_button.click()
  shot2Ok : Nat → Bool       -- screenshot after click
  payBtn : Nat → WaitRes     -- wait_for_selector('button:has-text("Click to Pay")')
  clickPayOk : Nat → Bool    -- payment_button.click()
  upiWaitOk : Nat → Bool     -- wait_for_selector('text=UPI')
  upiClickOk : Nat → Bool    -- page.click('text=UPI')
  pageUrl : Url              -- page.url when open_cart runs
  cartGotoOk : Bool          -- page.goto(cart_url) in open_cart
  cartWaitOk : Bool          -- wait_for_timeout in open_cart

/-- Result of `ensure_chrome_running` on the `k`-th call of a run. -/
def ensureOk (env : Env) (k : Nat) : Bool := (ensure_chrome_running (env.chrome k)).1

/-- The startup retry loop of lines 246-253: at most `max_retries = 3`
calls to `ensure_chrome_running`, separated by `time.sleep(2)`; when
all three fail the endpoint raises HTTP 500 (line 252).  Returns the
error if any, the number of calls made, and the events. -/
def chromePhase (env : Env) : Option Exc × Nat × List Ev :=
  if ensureOk env 0 then (none, 1, [Ev.ensureChrome 0 true])
  else if ensureOk env 1 then (none, 2, [Ev.ensureChrome 0 false, Ev.ensureChrome 1 true])
  else if ensureOk env 2 then
    (none, 3, [Ev.ensureChrome 0 false, Ev.ensureChrome 1 false, Ev.ensureChrome 2 true])
  else
    (some (Exc.http 500 "Could not ensure Chrome is running"), 3,
     [Ev.ensureChrome 0 false, Ev.ensureChrome 1 false, Ev.ensureChrome 2 false])

/-- The connect retry loop of lines 259-286: at most three
`connect_over_cdp` attempts; after a failed non-final attempt the code
sleeps, pkills Chrome (its own exceptions swallowed) and calls
`ensure_chrome_running` again, discarding the result; after the final
failure it raises HTTP 500 (line 282).  `base` is the index of the
next `ensure_chrome_running` call of the run.  (The `if not browser`
check at line 285 is unreachable: the loop either breaks with a
browser or raises.) -/
def connectPhase (env : Env) (base : Nat) : Option Exc × List Ev :=
  if env.connectOk 0 then (none, [Ev.connectTry 0 true])
  else
    let r0 := ensureOk env base
    if env.connectOk 1 then
      (none, [Ev.connectTry 0 false, Ev.ensureChrome base r0, Ev.connectTry 1 true])
    else
      let r1 := ensureOk env (base + 1)
      if env.connectOk 2 then
        (none, [Ev.connectTry 0 false, Ev.ensureChrome base r0, Ev.connectTry 1 false,
                Ev.ensureChrome (base + 1) r1, Ev.connectTry 2 true])
      else
        (some (Exc.http 500 "Failed to connect to Chrome after 3 attempts"),
         [Ev.connectTry 0 false, Ev.ensureChrome base r0, Ev.connectTry 1 false,
          Ev.ensureChrome (base + 1) r1, Ev.connectTry 2 false])

/-- The `except Exception as e` handler at lines 391-394: the failed
product is appended to `failed_products` and the exception re-raised
as HTTP 400. -/
def productExcWrap (p : String) (e : Exc) : Exc :=
  .http 400 ("Error adding product " ++ p ++ ": " ++ excStr e)

/-- How one iteration of the product loop ends: with an exception
(caught nowhere inside the loop) or with the `sys.exit()` of line 363.
There is no fall-through to the next product: the found-branch ends in
`sys.exit()` and the not-found branch raises (line 390), and the
handler at 391 always re-raises (line 394). -/
inductive IterRes where
  | exc (e : Exc)
  | exit
deriving DecidableEq

structure IterOut where
  res : IterRes
  evs : List Ev
  succAdded : Bool      -- whether the product reached successful_products (line 339)
  failedAdded : Nat     -- how many times it was appended to failed_products
deriving DecidableEq

/-- One iteration of the loop at lines 308-394 for product `p` at
position `i`. -/
def runProduct (env : Env) (i : Nat) (p : String) (orderId : String) : IterOut :=
  let nav := [Ev.searchNav i p]
  if !env.navOk i then
    ⟨.exc (productExcWrap p (.py "page.goto raised")), nav, false, 1⟩
  else
    let evs1 := nav ++ [Ev.popups]
    let fnd := find_add_to_cart_button (env.findSel i)
    let evs2 := evs1 ++ [Ev.findBtn i fnd]
    if fnd then
      if !env.shot1Ok i then
        ⟨.exc (productExcWrap p (.py "page.screenshot raised")), evs2, false, 1⟩
      else
        let evs3 := evs2 ++ [Ev.shot ("before_click_" ++ orderId ++ "_" ++ p ++ ".png")]
        if !env.clickAddOk i then
          ⟨.exc (productExcWrap p (.py "element.click raised")), evs3, false, 1⟩
        else
          let evs4 := evs3 ++ [Ev.clickAdd i, Ev.popups]
          if !env.shot2Ok i then
            ⟨.exc (productExcWrap p (.py "page.screenshot raised")), evs4, false, 1⟩
          else
            let evs5 := evs4 ++ [Ev.shot ("after_click_" ++ orderId ++ "_" ++ p ++ ".png")]
            -- line 339: successful_products.append(product)
            match env.payBtn i with
            | .err =>
              ⟨.exc (productExcWrap p (.py "wait_for_selector Click to Pay raised")),
               evs5, true, 1⟩
            | .absent =>
              -- line 348: raise HTTPException 400, caught at 391
              ⟨.exc (productExcWrap p (.http 400 "Payment button not found")),
               evs5 ++ [Ev.payWait i WaitRes.absent], true, 1⟩
            | .found =>
              let evs6 := evs5 ++ [Ev.payWait i WaitRes.found]
              if !env.clickPayOk i then
                ⟨.exc (productExcWrap p (.py "element.click raised")), evs6, true, 1⟩
              else
                let evs7 := evs6 ++ [Ev.clickPay i, Ev.popups]
                if !env.upiWaitOk i then
                  ⟨.exc (productExcWrap p (.py "wait_for_selector text UPI raised")),
                   evs7, true, 1⟩
                else
                  let evs8 := evs7 ++ [Ev.upiWaitEv i]
                  if !env.upiClickOk i then
                    ⟨.exc (productExcWrap p (.py "page.click text UPI raised")), evs8, true, 1⟩
                  else
                    -- line 363: sys.exit() raises SystemExit, which derives from
                    -- BaseException, so neither `except Exception` handler (391,
                    -- 415) catches it; lines 364-386 — enter_upi_and_pay and the
                    -- success payload — are unreachable.
                    ⟨.exit, evs8 ++ [Ev.selectUpi i, Ev.sysExitEv], true, 0⟩
    else
      -- lines 388-390: failed_products.append(product) then raise HTTP 404;
      -- the handler at 391 appends the product a second time and wraps.
      ⟨.exc (productExcWrap p
          (.http 404 ("Product " ++ p ++ " not found or Add to Cart button not visible"))),
       evs2, false, 2⟩

inductive LoopRes where
  | done
  | exc (e : Exc)
  | exit
deriving DecidableEq

structure LoopOut where
  res : LoopRes
  evs : List Ev
  successful : List String
  failed : List String
deriving DecidableEq

/-- The product loop (lines 304-394).  An empty product list skips the
loop; otherwise the first iteration runs and — as its body never falls
through — decides the run. -/
def productLoop (env : Env) (orderId : String) : List String → LoopOut
  | [] => ⟨.done, [], [], []⟩
  | p :: _rest =>
    let it := runProduct env 0 p orderId
    let succ := if it.succAdded then [p] else []
    let failed := List.replicate it.failedAdded p
    match it.res with
    | .exc e => ⟨.exc e, it.evs, succ, failed⟩
    | .exit => ⟨.exit, it.evs, succ, failed⟩

structure CartOut where
  res : Option Exc
  evs : List Ev
deriving DecidableEq

/-- The checkout block at lines 396-413: popups, `open_cart`, popups,
then fall through to the `return` of line 410; a failed `open_cart`
raises HTTP 400 (line 403), caught at 411 and wrapped as
"Error during checkout: ...". -/
def cartPhase (env : Env) : CartOut :=
  let url := open_cart_url env.pageUrl
  if open_cart env.pageUrl env.cartGotoOk env.cartWaitOk then
    ⟨none, [Ev.popups, Ev.openCartEv url, Ev.popups]⟩
  else
    ⟨some (Exc.http 400 ("Error during checkout: " ++ excStr (Exc.http 400 "Failed to open cart"))),
     [Ev.popups, Ev.openCartEv url]⟩

/-- What the client observes from one request to POST /order.
`success` is the payload of lines 378-386 (never constructed: it sits
after the `sys.exit()`); `tupleRet` is the bare tuple of line 410
(`return page, order_id, successful_products, failed_products` — the
live `page` handle is omitted from the model); `httpError` is a
rendered `HTTPException`; `sysExit` is the propagating `SystemExit`
of line 363, which is not an HTTP response at all. -/
inductive Outcome where
  | success (orderId upiUsed screenshot : String) (added failed : List String)
  | tupleRet (orderId : String) (successful failed : List String)
  | httpError (status : Nat) (detail : String)
  | sysExit
deriving DecidableEq

structure RunOut where
  outcome : Outcome
  trace : List Ev
  successful : List String
  failed : List String
deriving DecidableEq

/-- The `except Exception` at lines 415-417: any exception from the
outer block — including `HTTPException`s raised inside it — is
re-raised as HTTP 500 with the stringified exception appended. -/
def outerWrap (e : Exc) : Outcome :=
  .httpError 500 ("Browser automation error: " ++ excStr e)

/-- FastAPI's rendering of an exception that escapes the handler
before the try at line 255 (only `HTTPException`s arise there). -/
def renderExc : Exc → Outcome
  | .http s d => Outcome.httpError s d
  | .py m => Outcome.httpError 500 m

/-- The endpoint `create_order` (lines 240-417), as one function from
the request and the environment to the observable outcome, the event
trace, and the final successful/failed product lists. -/
def create_order (env : Env) (req : OrderRequest) : RunOut :=
  match chromePhase env with
  | (some e, _, evs) => ⟨renderExc e, evs, [], []⟩
  | (none, base, evs1) =>
    match connectPhase env base with
    | (some e, evs2) => ⟨outerWrap e, evs1 ++ evs2, [], []⟩
    | (none, evs2) =>
      let lo := productLoop env env.orderId req.products
      match lo.res with
      | .exc e => ⟨outerWrap e, evs1 ++ evs2 ++ lo.evs, lo.successful, lo.failed⟩
      | .exit => ⟨.sysExit, evs1 ++ evs2 ++ lo.evs, lo.successful, lo.failed⟩
      | .done =>
        let co := cartPhase env
        match co.res with
        | some e => ⟨outerWrap e, evs1 ++ evs2 ++ lo.evs ++ co.evs, lo.successful, lo.failed⟩
        | none =>
          ⟨.tupleRet env.orderId lo.successful lo.failed,
           evs1 ++ evs2 ++ lo.evs ++ co.evs, lo.successful, lo.failed⟩

/-! ## Derived predicates on runs -/

def isSuccess : Outcome → Bool
  | .success _ _ _ _ _ => true
  | _ => false

def isFillEv : Ev → Bool
  | .fillUpi _ => true
  | _ => false

def isVerifyClickEv : Ev → Bool
  | .clickVerifyPay => true
  | _ => false

def isOpenCartEv : Ev → Bool
  | .openCartEv _ => true
  | _ => false

/-- A search navigation for any product position beyond the first. -/
def isLaterSearchEv : Ev → Bool
  | .searchNav i _ => decide (1 ≤ i)
  | _ => false

def isChromeKind : Ev → Bool
  | .ensureChrome _ _ => true
  | _ => false

def isConnectKind : Ev → Bool
  | .connectTry _ _ => true
  | .ensureChrome _ _ => true
  | _ => false

def isLoopKind : Ev → Bool
  | .searchNav _ _ => true
  | .popups => true
  | .findBtn _ _ => true
  | .shot _ => true
  | .clickAdd _ => true
  | .payWait _ _ => true
  | .clickPay _ => true
  | .upiWaitEv _ => true
  | .selectUpi _ => true
  | .sysExitEv => true
  | _ => false

def isCartKind : Ev → Bool
  | .popups => true
  | .openCartEv _ => true
  | _ => false

/-- Some call among the first three to `ensure_chrome_running` succeeds. -/
def ensureOkWithin3 (env : Env) : Bool := ensureOk env 0 || ensureOk env 1 || ensureOk env 2

/-- Some of the three connect attempts succeeds. -/
def connectOkWithin3 (env : Env) : Bool := env.connectOk 0 || env.connectOk 1 || env.connectOk 2

/-- Every step of the first product's iteration up to the UPI
selection succeeds. -/
def happyProduct0 (env : Env) : Bool :=
  env.navOk 0 && find_add_to_cart_button (env.findSel 0) && env.shot1Ok 0 &&
    env.clickAddOk 0 && env.shot2Ok 0 && decide (env.payBtn 0 = WaitRes.found) &&
    env.clickPayOk 0 && env.upiWaitOk 0 && env.upiClickOk 0

/-- The run encounters no terminal failure: browser ensured and
connected within the retry budgets, and then either the (empty-list)
cart block or the first product's steps all succeed. -/
def happyPath (env : Env) (req : OrderRequest) : Bool :=
  ensureOkWithin3 env && connectOkWithin3 env &&
    (if req.products.isEmpty then env.cartGotoOk && env.cartWaitOk else happyProduct0 env)

/-! ## Concrete environments used as witnesses -/

/-- Chrome already running with remote debugging. -/
def chromeUp : ChromeEnv := ⟨true, true, true, fun _ => true⟩

/-- Chrome absent and never coming up. -/
def chromeDown : ChromeEnv := ⟨false, true, true, fun _ => false⟩

def demoUrl : Url := ⟨"https", "www.zeptonow.com", "/search", "query=milk", ""⟩

/-- Fully cooperative environment: every external step succeeds.
Fields in order: chrome, connectOk, orderId, navOk, findSel, shot1Ok,
clickAddOk, shot2Ok, payBtn, clickPayOk, upiWaitOk, upiClickOk,
pageUrl, cartGotoOk, cartWaitOk. -/
def happyEnv : Env :=
  ⟨fun _ => chromeUp, fun _ => true, "20250101_000000", fun _ => true,
   fun _ _ => WaitRes.found, fun _ => true, fun _ => true, fun _ => true,
   fun _ => WaitRes.found, fun _ => true, fun _ => true, fun _ => true,
   demoUrl, true, true⟩

/-- Like `happyEnv` but the add-to-cart button is never found. -/
def notFoundEnv : Env :=
  ⟨fun _ => chromeUp, fun _ => true, "20250101_000000", fun _ => true,
   fun _ _ => WaitRes.absent, fun _ => true, fun _ => true, fun _ => true,
   fun _ => WaitRes.found, fun _ => true, fun _ => true, fun _ => true,
   demoUrl, true, true⟩

/-- Like `happyEnv` but Chrome can never be brought up. -/
def noChromeEnv : Env :=
  ⟨fun _ => chromeDown, fun _ => true, "20250101_000000", fun _ => true,
   fun _ _ => WaitRes.found, fun _ => true, fun _ => true, fun _ => true,
   fun _ => WaitRes.found, fun _ => true, fun _ => true, fun _ => true,
   demoUrl, true, true⟩

/-- A fully cooperative popup-handling environment. -/
def happyPopupEnv : Nat → PopupSelEnv := fun _ => ⟨WaitRes.found, true, true, true, WaitRes.absent⟩

/-- A fully cooperative environment for `enter_upi_and_pay`. -/
def happyUpiEnv : UpiEnv := ⟨WaitRes.found, true, true, fun _ => WaitRes.found, true⟩

/-- A search navigation event (any product position). -/
def isSearchEv : Ev → Bool
  | .searchNav _ _ => true
  | _ => false

/-! ## Lemmas about the model -/

theorem append_ne_emptyStr (a b : String) (h : a.length ≠ 0) : a ++ b ≠ "" := by
  intro hc
  have hl := congrArg String.length hc
  rw [String.length_append] at hl
  simp only [String.length_empty] at hl
  omega

theorem popupIter_ok (e : PopupSelEnv) : popupIter e = Except.ok () := by
  unfold popupIter tryEx
  cases popupIterBody e <;> rfl

theorem popupLoop_ok (env : Nat → PopupSelEnv) (l : List String) (i : Nat) :
    popupLoop env l i = Except.ok () := by
  induction l generalizing i with
  | nil => rfl
  | cons a rest ih => simp [popupLoop, popupIter_ok, ih]

theorem waitLoop_polls_le (poll : Nat → Bool) (i fuel : Nat) :
    (waitLoop poll i fuel).2 ≤ i + fuel := by
  induction fuel generalizing i with
  | zero => simp [waitLoop]
  | succ f ih =>
    unfold waitLoop
    split
    · show i + 1 ≤ i + (f + 1)
      omega
    · have h := ih (i + 1)
      omega

theorem ensure_polls_le (ce : ChromeEnv) : (ensure_chrome_running ce).2 ≤ 10 := by
  unfold ensure_chrome_running
  split_ifs <;> first | simp | simpa using waitLoop_polls_le ce.poll 0 10

theorem asStrList_map (ps : List String) : asStrList (ps.map Json.str) = some ps := by
  induction ps with
  | nil => rfl
  | cons p rest ih => simp [asStrList, ih]

/-! ### Phase characterizations -/

theorem chromePhase_none_iff (env : Env) :
    (chromePhase env).1 = none ↔ ensureOkWithin3 env = true := by
  unfold chromePhase ensureOkWithin3
  split_ifs <;> simp_all

theorem chromePhase_some (env : Env) (h : ensureOkWithin3 env = false) :
    (chromePhase env).1 = some (Exc.http 500 "Could not ensure Chrome is running") := by
  unfold chromePhase
  unfold ensureOkWithin3 at h
  split_ifs <;> simp_all

theorem chromePhase_calls_le (env : Env) : (chromePhase env).2.1 ≤ 3 := by
  unfold chromePhase
  split_ifs <;> simp

theorem chromePhase_evs_kind (env : Env) :
    (chromePhase env).2.2.all isChromeKind = true := by
  unfold chromePhase
  split_ifs <;> rfl

theorem connectPhase_none_iff (env : Env) (base : Nat) :
    (connectPhase env base).1 = none ↔ connectOkWithin3 env = true := by
  unfold connectPhase connectOkWithin3
  split_ifs <;> simp_all

theorem connectPhase_some (env : Env) (base : Nat) (h : connectOkWithin3 env = false) :
    (connectPhase env base).1 = some (Exc.http 500 "Failed to connect to Chrome after 3 attempts") := by
  unfold connectPhase
  unfold connectOkWithin3 at h
  split_ifs <;> simp_all

theorem connectPhase_evs_kind (env : Env) (base : Nat) :
    (connectPhase env base).2.all isConnectKind = true := by
  unfold connectPhase
  split_ifs <;> rfl

theorem runProduct_exit_iff (env : Env) (p oid : String) :
    ((runProduct env 0 p oid).res = IterRes.exit) ↔ happyProduct0 env = true := by
  simp only [runProduct, happyProduct0]
  repeat' split
  all_goals simp_all

theorem runProduct_failed_of_exc (env : Env) (p oid : String)
    (h : (runProduct env 0 p oid).res ≠ IterRes.exit) :
    1 ≤ (runProduct env 0 p oid).failedAdded := by
  simp only [runProduct] at h ⊢
  repeat' split
  all_goals simp_all

theorem runProduct_evs_kind (env : Env) (p oid : String) :
    ((runProduct env 0 p oid).evs).all isLoopKind = true := by
  simp only [runProduct]
  repeat' split
  all_goals rfl

theorem runProduct_filter_fill (env : Env) (p oid : String) :
    ((runProduct env 0 p oid).evs).filter isFillEv = [] := by
  simp only [runProduct]
  repeat' split
  all_goals rfl

theorem runProduct_filter_verify (env : Env) (p oid : String) :
    ((runProduct env 0 p oid).evs).filter isVerifyClickEv = [] := by
  simp only [runProduct]
  repeat' split
  all_goals rfl

theorem runProduct_filter_open (env : Env) (p oid : String) :
    ((runProduct env 0 p oid).evs).filter isOpenCartEv = [] := by
  simp only [runProduct]
  repeat' split
  all_goals rfl

theorem runProduct_filter_later (env : Env) (p oid : String) :
    ((runProduct env 0 p oid).evs).filter isLaterSearchEv = [] := by
  simp only [runProduct]
  repeat' split
  all_goals rfl

theorem runProduct_filter_search (env : Env) (p oid : String) :
    ((runProduct env 0 p oid).evs).filter isSearchEv = [Ev.searchNav 0 p] := by
  simp only [runProduct]
  repeat' split
  all_goals rfl

theorem cartPhase_none_iff (env : Env) :
    (cartPhase env).res = none ↔ (env.cartGotoOk && env.cartWaitOk) = true := by
  unfold cartPhase open_cart
  split_ifs <;> simp_all

theorem cartPhase_evs_kind (env : Env) : (cartPhase env).evs.all isCartKind = true := by
  unfold cartPhase
  split_ifs <;> rfl

theorem cartPhase_filter_fill (env : Env) : (cartPhase env).evs.filter isFillEv = [] := by
  unfold cartPhase
  split_ifs <;> rfl

theorem cartPhase_filter_verify (env : Env) : (cartPhase env).evs.filter isVerifyClickEv = [] := by
  unfold cartPhase
  split_ifs <;> rfl

theorem cartPhase_filter_search (env : Env) : (cartPhase env).evs.filter isSearchEv = [] := by
  unfold cartPhase
  split_ifs <;> rfl

theorem cartPhase_filter_later (env : Env) : (cartPhase env).evs.filter isLaterSearchEv = [] := by
  unfold cartPhase
  split_ifs <;> rfl

theorem chromePhase_filter (env : Env) (q : Ev → Bool)
    (hchrome : ∀ c ok, q (Ev.ensureChrome c ok) = false) :
    (chromePhase env).2.2.filter q = [] := by
  unfold chromePhase
  split_ifs <;> simp [List.filter_cons, hchrome]

theorem connectPhase_filter (env : Env) (base : Nat) (q : Ev → Bool)
    (hchrome : ∀ c ok, q (Ev.ensureChrome c ok) = false)
    (hconn : ∀ a ok, q (Ev.connectTry a ok) = false) :
    (connectPhase env base).2.filter q = [] := by
  unfold connectPhase
  split_ifs <;> simp [List.filter_cons, hchrome, hconn]

theorem productLoop_filter (env : Env) (oid : String) (products : List String) (q : Ev → Bool)
    (hloop : ∀ p, ((runProduct env 0 p oid).evs).filter q = []) :
    (productLoop env oid products).evs.filter q = [] := by
  cases products with
  | nil => rfl
  | cons p rest =>
    simp only [productLoop]
    split <;> simp [hloop]

theorem create_order_trace_filter (env : Env) (req : OrderRequest) (q : Ev → Bool)
    (hchrome : ∀ c ok, q (Ev.ensureChrome c ok) = false)
    (hconn : ∀ a ok, q (Ev.connectTry a ok) = false)
    (hloop : ∀ p, ((runProduct env 0 p env.orderId).evs).filter q = [])
    (hcart : (cartPhase env).evs.filter q = []) :
    (create_order env req).trace.filter q = [] := by
  have hlo := productLoop_filter env env.orderId req.products q hloop
  simp only [create_order]
  rcases h1 : chromePhase env with ⟨oe, base, evs1⟩
  have hc1 : evs1.filter q = [] := by
    have h := chromePhase_filter env q hchrome
    rw [h1] at h
    exact h
  cases oe with
  | some e => simpa using hc1
  | none =>
    dsimp only
    rcases h2 : connectPhase env base with ⟨oc, evs2⟩
    have hc2 : evs2.filter q = [] := by
      have h := connectPhase_filter env base q hchrome hconn
      rw [h2] at h
      exact h
    cases oc with
    | some e => simp [List.filter_append, hc1, hc2]
    | none =>
      cases h3 : (productLoop env env.orderId req.products).res with
      | exc e => simp [h3, List.filter_append, hc1, hc2, hlo]
      | exit => simp [h3, List.filter_append, hc1, hc2, hlo]
      | done =>
        cases h4 : (cartPhase env).res with
        | some e => simp [h3, h4, List.filter_append, hc1, hc2, hlo, hcart]
        | none => simp [h3, h4, List.filter_append, hc1, hc2, hlo, hcart]

/-- No run of the endpoint ever fills the UPI id into the payment form:
`enter_upi_and_pay` sits after the `sys.exit()` of line 363. -/
theorem trace_no_fill (env : Env) (req : OrderRequest) :
    (create_order env req).trace.filter isFillEv = [] := by
  refine create_order_trace_filter env req isFillEv (fun _ _ => rfl) (fun _ _ => rfl)
    (fun p => runProduct_filter_fill env p env.orderId) (cartPhase_filter_fill env)

/-- No run of the endpoint ever clicks Verify and Pay. -/
theorem trace_no_verify (env : Env) (req : OrderRequest) :
    (create_order env req).trace.filter isVerifyClickEv = [] := by
  refine create_order_trace_filter env req isVerifyClickEv (fun _ _ => rfl) (fun _ _ => rfl)
    (fun p => runProduct_filter_verify env p env.orderId) (cartPhase_filter_verify env)

/-- No run ever searches for a product beyond the first of the request. -/
theorem trace_no_later_search (env : Env) (req : OrderRequest) :
    (create_order env req).trace.filter isLaterSearchEv = [] := by
  refine create_order_trace_filter env req isLaterSearchEv (fun _ _ => rfl) (fun _ _ => rfl)
    (fun p => runProduct_filter_later env p env.orderId) (cartPhase_filter_later env)

theorem isSuccess_renderExc (e : Exc) : isSuccess (renderExc e) = false := by
  cases e <;> rfl

theorem isSuccess_outerWrap (e : Exc) : isSuccess (outerWrap e) = false := rfl

/-- Every run's outcome is an HTTP error, the propagating SystemExit,
or the bare tuple of line 410 — never the success payload of 378-386. -/
theorem isSuccess_create_order (env : Env) (req : OrderRequest) :
    isSuccess (create_order env req).outcome = false := by
  simp only [create_order]
  repeat' split
  all_goals first
    | rfl
    | simp only [isSuccess_renderExc, isSuccess_outerWrap]

/-! ### Round trip of the query re-encoding (for C9) -/

theorem hexDig_mem (n : Nat) : hexDig n ∈ hexChars := by
  unfold hexDig
  by_cases h : n < hexChars.length
  · rw [List.getD_eq_getElem _ _ h]
    exact List.getElem_mem h
  · rw [List.getD_eq_default _ _ (Nat.le_of_not_lt h)]
    decide

theorem hexVal_hexDig : ∀ n, n < 16 → hexVal (hexDig n) = n := by decide

theorem isHexChar_hexDig : ∀ n, n < 16 → isHexChar (hexDig n) = true := by decide

theorem mem_hexChars_ne (c : Char) (h : c ∈ hexChars) :
    c ≠ '&' ∧ c ≠ '=' ∧ c ≠ '+' ∧ c ≠ '%' := by
  fin_cases h <;> exact ⟨by decide, by decide, by decide, by decide⟩

theorem hexDig_ne_special (n : Nat) :
    hexDig n ≠ '&' ∧ hexDig n ≠ '=' ∧ hexDig n ≠ '+' ∧ hexDig n ≠ '%' :=
  mem_hexChars_ne (hexDig n) (hexDig_mem n)

theorem safe_bounds (c : Char) (h : isSafeChar c = true) :
    c.toNat ≠ 38 ∧ c.toNat ≠ 61 ∧ c.toNat ≠ 43 ∧ c.toNat ≠ 37 := by
  simp only [isSafeChar, Bool.or_eq_true, Bool.and_eq_true, decide_eq_true_eq] at h
  have h95 : ('_' : Char).toNat = 95 := by decide
  have h46 : ('.' : Char).toNat = 46 := by decide
  have h45 : ('-' : Char).toNat = 45 := by decide
  have h126 : ('~' : Char).toNat = 126 := by decide
  rcases h with ((((((h | h) | h) | h) | h) | h) | h) <;>
    first
      | omega
      | (subst h; refine ⟨by decide, by decide, by decide, by decide⟩)

theorem unquoteFuel_nil (f : Nat) : unquoteFuel f [] = [] := by
  cases f <;> rfl

theorem unquoteFuel_congr : ∀ (f : Nat) (s : List Char) (f' : Nat),
    s.length ≤ f → s.length ≤ f' → unquoteFuel f s = unquoteFuel f' s := by
  intro f
  induction f with
  | zero =>
    intro s f' h _
    have hs : s = [] := List.eq_nil_of_length_eq_zero (Nat.le_zero.1 h)
    subst hs
    rw [unquoteFuel_nil, unquoteFuel_nil]
  | succ f ih =>
    intro s f' h h'
    cases s with
    | nil => rw [unquoteFuel_nil, unquoteFuel_nil]
    | cons c rest =>
      cases f' with
      | zero => simp at h'
      | succ f'' =>
        rw [List.length_cons] at h h'
        show unquoteFuel (f + 1) (c :: rest) = unquoteFuel (f'' + 1) (c :: rest)
        simp only [unquoteFuel]
        by_cases hc : c = '%'
        · rw [if_pos hc, if_pos hc]
          rcases rest with _ | ⟨h1, rest1⟩
          · rw [unquoteFuel_nil, unquoteFuel_nil]
          · rcases rest1 with _ | ⟨h2, rest2⟩
            · rw [ih [h1] f'' (by simp at h ⊢; omega) (by simp at h' ⊢; omega)]
            · dsimp only
              simp only [List.length_cons] at h h'
              by_cases hx : (isHexChar h1 && isHexChar h2) = true
              · rw [if_pos hx, if_pos hx, ih rest2 f'' (by omega) (by omega)]
              · rw [if_neg (by simp [hx]), if_neg (by simp [hx]),
                  ih (h1 :: h2 :: rest2) f'' (by simp; omega) (by simp; omega)]
        · rw [if_neg hc, if_neg hc, ih rest f'' (by omega) (by omega)]

theorem unquote_cons_ne (c : Char) (s : List Char) (h : c ≠ '%') :
    unquote (c :: s) = c :: unquote s := by
  show unquoteFuel (c :: s).length (c :: s) = c :: unquoteFuel s.length s
  rw [List.length_cons]
  simp only [unquoteFuel, if_neg h]

theorem unquote_byte (h1 h2 : Char) (s : List Char)
    (hx : (isHexChar h1 && isHexChar h2) = true) :
    unquote ('%' :: h1 :: h2 :: s)
      = Char.ofNat (16 * hexVal h1 + hexVal h2) :: unquote s := by
  show unquoteFuel ('%' :: h1 :: h2 :: s).length ('%' :: h1 :: h2 :: s)
      = Char.ofNat (16 * hexVal h1 + hexVal h2) :: unquoteFuel s.length s
  rw [List.length_cons, List.length_cons, List.length_cons]
  simp only [unquoteFuel, if_pos rfl, if_pos hx]
  exact congrArg _ (unquoteFuel_congr (s.length + 1 + 1) s s.length (by omega) (by omega))

theorem unquote_pct_short (s : List Char) (hs : s.length ≤ 1) :
    unquote ('%' :: s) = '%' :: unquote s := by
  rcases s with _ | ⟨h1, rest⟩
  · rfl
  · rcases rest with _ | ⟨h2, rest2⟩
    · rfl
    · simp at hs

theorem unquote_invalid (h1 h2 : Char) (s : List Char)
    (hx : (isHexChar h1 && isHexChar h2) = false) :
    unquote ('%' :: h1 :: h2 :: s) = '%' :: unquote (h1 :: h2 :: s) := by
  show unquoteFuel ('%' :: h1 :: h2 :: s).length ('%' :: h1 :: h2 :: s)
      = '%' :: unquoteFuel (h1 :: h2 :: s).length (h1 :: h2 :: s)
  rw [List.length_cons]
  simp only [unquoteFuel, if_pos rfl, hx]
  rfl

theorem replacePlus_append (a b : List Char) :
    replacePlus (a ++ b) = replacePlus a ++ replacePlus b := by
  simp [replacePlus]

theorem quoteChar_decode (c : Char) (h : c.toNat < 256) (s : List Char) :
    unquote (replacePlus (quoteChar c) ++ s) = c :: unquote s := by
  by_cases hsp : c = ' '
  · subst hsp
    rw [show replacePlus (quoteChar ' ') = [' '] from rfl]
    exact unquote_cons_ne ' ' s (by decide)
  · by_cases hsafe : isSafeChar c = true
    · obtain ⟨h38, h61, h43, h37⟩ := safe_bounds c hsafe
      simp only [quoteChar, if_neg hsp, if_pos hsafe, replacePlus, List.map_cons, List.map_nil]
      have hplus : c ≠ '+' := by
        intro hh
        subst hh
        exact h43 (by decide)
      rw [if_neg hplus]
      refine unquote_cons_ne c s ?_
      intro hh
      subst hh
      exact h37 (by decide)
    · have hsafe' : isSafeChar c = false := by simpa using hsafe
      simp only [quoteChar, if_neg hsp, hsafe', if_neg (by simp : ¬false = true),
        replacePlus, List.map_cons, List.map_nil]
      have hd1 := hexDig_ne_special (c.toNat / 16 % 16)
      have hd2 := hexDig_ne_special (c.toNat % 16)
      rw [if_neg (by decide : ¬('%' : Char) = '+'), if_neg hd1.2.2.1, if_neg hd2.2.2.1]
      have hdivlt : c.toNat / 16 % 16 < 16 := Nat.mod_lt _ (by omega)
      have hmodlt : c.toNat % 16 < 16 := Nat.mod_lt _ (by omega)
      show unquote ('%' :: hexDig (c.toNat / 16 % 16) :: hexDig (c.toNat % 16) :: s)
          = c :: unquote s
      rw [unquote_byte _ _ s (by
        rw [isHexChar_hexDig _ hdivlt, isHexChar_hexDig _ hmodlt]
        rfl)]
      rw [hexVal_hexDig _ hdivlt, hexVal_hexDig _ hmodlt]
      have harith : 16 * (c.toNat / 16 % 16) + c.toNat % 16 = c.toNat := by omega
      rw [harith, Char.ofNat_toNat]

theorem unquote_plus_quote_plus (s : List Char) (h : ∀ c ∈ s, c.toNat < 256) :
    unquote_plus (quote_plus s) = s := by
  induction s with
  | nil => rfl
  | cons c cs ih =>
    show unquote (replacePlus (quoteChar c ++ quote_plus cs)) = c :: cs
    rw [replacePlus_append, quoteChar_decode c (h c (List.mem_cons_self c cs))]
    exact congrArg (fun t => c :: t) (ih (fun x hx => h x (List.mem_cons_of_mem c hx)))

theorem splitAmp_no_amp (s : List Char) (h : '&' ∉ s) : splitAmp s = [s] := by
  induction s with
  | nil => rfl
  | cons c rest ih =>
    have hc : ¬c = '&' := fun hh => h (hh ▸ List.mem_cons_self c rest)
    have hr : '&' ∉ rest := fun hh => h (List.mem_cons_of_mem c hh)
    simp only [splitAmp, if_neg hc, ih hr]

theorem splitAmp_cons_ne (c : Char) (xs : List Char) (h : ¬c = '&') :
    splitAmp (c :: xs)
      = match splitAmp xs with
        | s :: ss => (c :: s) :: ss
        | [] => [[c]] := by
  simp only [splitAmp, if_neg h]

theorem splitAmp_append_amp (s t : List Char) (h : '&' ∉ s) :
    splitAmp (s ++ '&' :: t) = s :: splitAmp t := by
  induction s with
  | nil => simp [splitAmp]
  | cons c rest ih =>
    have hc : ¬c = '&' := fun hh => h (hh ▸ List.mem_cons_self c rest)
    have hr : '&' ∉ rest := fun hh => h (List.mem_cons_of_mem c hh)
    rw [List.cons_append, splitAmp_cons_ne c _ hc, ih hr]

theorem splitAmp_joinAmp (segs : List (List Char)) (hne : segs ≠ [])
    (h : ∀ s ∈ segs, '&' ∉ s) : splitAmp (joinAmp segs) = segs := by
  induction segs with
  | nil => exact absurd rfl hne
  | cons s rest ih =>
    cases rest with
    | nil => exact splitAmp_no_amp s (h s (List.mem_cons_self s []))
    | cons s2 rest2 =>
      show splitAmp (s ++ '&' :: joinAmp (s2 :: rest2)) = s :: (s2 :: rest2)
      rw [splitAmp_append_amp s _ (h s (List.mem_cons_self s _))]
      rw [ih (by simp) (fun x hx => h x (List.mem_cons_of_mem s hx))]

theorem splitFirstEq_cons_ne (c : Char) (xs : List Char) (h : ¬c = '=') :
    splitFirstEq (c :: xs)
      = match splitFirstEq xs with
        | some (k, v) => some (c :: k, v)
        | none => none := by
  simp only [splitFirstEq, if_neg h]

theorem splitFirstEq_append (k v : List Char) (h : '=' ∉ k) :
    splitFirstEq (k ++ '=' :: v) = some (k, v) := by
  induction k with
  | nil => simp [splitFirstEq]
  | cons c rest ih =>
    have hc : ¬c = '=' := fun hh => h (hh ▸ List.mem_cons_self c rest)
    have hr : '=' ∉ rest := fun hh => h (List.mem_cons_of_mem c hh)
    rw [List.cons_append, splitFirstEq_cons_ne c _ hc, ih hr]

theorem quoteChar_no_amp_eq (c : Char) :
    '&' ∉ quoteChar c ∧ '=' ∉ quoteChar c := by
  unfold quoteChar
  split_ifs with h1 h2
  · exact ⟨by decide, by decide⟩
  · obtain ⟨h38, h61, _, _⟩ := safe_bounds c h2
    constructor
    · intro hm
      rw [List.mem_singleton] at hm
      subst hm
      exact h38 (by decide)
    · intro hm
      rw [List.mem_singleton] at hm
      subst hm
      exact h61 (by decide)
  · have hd1 := hexDig_ne_special (c.toNat / 16 % 16)
    have hd2 := hexDig_ne_special (c.toNat % 16)
    constructor
    · intro hm
      simp only [List.mem_cons, List.not_mem_nil, or_false] at hm
      rcases hm with h | h | h
      · exact absurd h (by decide)
      · exact hd1.1 h.symm
      · exact hd2.1 h.symm
    · intro hm
      simp only [List.mem_cons, List.not_mem_nil, or_false] at hm
      rcases hm with h | h | h
      · exact absurd h (by decide)
      · exact hd1.2.1 h.symm
      · exact hd2.2.1 h.symm

theorem quote_plus_no_amp (s : List Char) : '&' ∉ quote_plus s := by
  induction s with
  | nil => simp [quote_plus]
  | cons c rest ih =>
    show '&' ∉ quoteChar c ++ quote_plus rest
    rw [List.mem_append]
    rintro (hm | hm)
    · exact (quoteChar_no_amp_eq c).1 hm
    · exact ih hm

theorem quote_plus_no_eq (s : List Char) : '=' ∉ quote_plus s := by
  induction s with
  | nil => simp [quote_plus]
  | cons c rest ih =>
    show '=' ∉ quoteChar c ++ quote_plus rest
    rw [List.mem_append]
    rintro (hm | hm)
    · exact (quoteChar_no_amp_eq c).2 hm
    · exact ih hm

theorem quoteChar_ne_nil (c : Char) : quoteChar c ≠ [] := by
  unfold quoteChar
  split_ifs <;> simp

theorem quote_plus_ne_nil (v : List Char) (h : v ≠ []) : quote_plus v ≠ [] := by
  cases v with
  | nil => exact absurd rfl h
  | cons c rest =>
    show quoteChar c ++ quote_plus rest ≠ []
    simp [quoteChar_ne_nil c]

theorem strData_ne_nil (v : String) (h : v ≠ "") : v.data ≠ [] := by
  intro hd
  apply h
  cases v with
  | mk d =>
    cases hd
    rfl

theorem segParse_enc (k v : String) (hk : ∀ c ∈ k.data, c.toNat < 256)
    (hv : ∀ c ∈ v.data, c.toNat < 256) (hvne : v ≠ "") :
    segParse (quote_plus k.data ++ '=' :: quote_plus v.data) = some (k, v) := by
  unfold segParse
  rw [if_neg (by simp : ¬(quote_plus k.data ++ '=' :: quote_plus v.data = []))]
  rw [splitFirstEq_append _ _ (quote_plus_no_eq k.data)]
  dsimp only
  rw [if_neg (quote_plus_ne_nil v.data (strData_ne_nil v hvne))]
  rw [unquote_plus_quote_plus k.data hk, unquote_plus_quote_plus v.data hv]

theorem replacePlus_ne_nil (s : List Char) (h : s ≠ []) : replacePlus s ≠ [] := by
  cases s with
  | nil => exact absurd rfl h
  | cons c rest => simp [replacePlus]

theorem unquote_ne_nil (s : List Char) (h : s ≠ []) : unquote s ≠ [] := by
  cases s with
  | nil => exact absurd rfl h
  | cons c rest =>
    by_cases h0 : c = '%'
    · subst h0
      rcases rest with _ | ⟨h1, rest1⟩
      · rw [unquote_pct_short [] (by simp)]
        simp
      · rcases rest1 with _ | ⟨h2, rest2⟩
        · rw [unquote_pct_short [h1] (by simp)]
          simp
        · by_cases hx : (isHexChar h1 && isHexChar h2) = true
          · rw [unquote_byte h1 h2 rest2 hx]
            simp
          · rw [unquote_invalid h1 h2 rest2 (by simpa using hx)]
            simp
    · rw [unquote_cons_ne c rest h0]
      simp

theorem parse_qsl_vne (q : List Char) : ∀ kv ∈ parse_qsl q, kv.2 ≠ "" := by
  intro kv hkv
  unfold parse_qsl at hkv
  rw [List.mem_filterMap] at hkv
  obtain ⟨seg, _, hparse⟩ := hkv
  unfold segParse at hparse
  split_ifs at hparse
  rcases hsp : splitFirstEq seg with _ | ⟨k, v⟩
  · rw [hsp] at hparse
    cases hparse
  · rw [hsp] at hparse
    dsimp only at hparse
    split_ifs at hparse with h2
    injection hparse with hparse
    subst hparse
    show String.mk (unquote_plus v) ≠ ""
    intro hh
    have hnil : unquote_plus v = [] := congrArg String.data hh
    exact unquote_ne_nil (replacePlus v) (replacePlus_ne_nil v h2) hnil

theorem encPairs_ne_nil (m : List (String × List String)) (hm : m ≠ [])
    (hvals : ∀ kv ∈ m, kv.2 ≠ []) : encPairs m ≠ [] := by
  cases m with
  | nil => exact absurd rfl hm
  | cons kv rest =>
    rcases kv with ⟨k, vs⟩
    cases vs with
    | nil => exact absurd rfl (hvals (k, []) (List.mem_cons_self _ _))
    | cons v vtl => simp [encPairs]

theorem encPairs_no_amp (m : List (String × List String)) :
    ∀ s ∈ encPairs m, '&' ∉ s := by
  induction m with
  | nil =>
    intro s hs
    simp [encPairs] at hs
  | cons kv rest ih =>
    rcases kv with ⟨k, vs⟩
    intro s hs
    rw [show encPairs ((k, vs) :: rest)
        = vs.map (fun v => quote_plus k.data ++ '=' :: quote_plus v.data) ++ encPairs rest
      from rfl, List.mem_append] at hs
    rcases hs with hs | hs
    · rw [List.mem_map] at hs
      obtain ⟨v, _, rfl⟩ := hs
      intro hcm
      rw [List.mem_append] at hcm
      rcases hcm with hcm | hcm
      · exact quote_plus_no_amp k.data hcm
      · rcases List.mem_cons.1 hcm with he | hcm
        · exact absurd he (by decide)
        · exact quote_plus_no_amp v.data hcm
    · exact ih s hs

theorem filterMap_segParse_enc (k : String) (vs : List String)
    (hk : ∀ c ∈ k.data, c.toNat < 256)
    (hv : ∀ v ∈ vs, (∀ c ∈ v.data, c.toNat < 256) ∧ v ≠ "") :
    List.filterMap segParse (vs.map (fun v => quote_plus k.data ++ '=' :: quote_plus v.data))
      = vs.map (fun v => (k, v)) := by
  induction vs with
  | nil => rfl
  | cons v vtl ih =>
    simp only [List.map_cons, List.filterMap_cons]
    rw [segParse_enc k v hk (hv v (List.mem_cons_self _ _)).1 (hv v (List.mem_cons_self _ _)).2]
    rw [ih (fun x hx => hv x (List.mem_cons_of_mem _ hx))]

theorem filterMap_encPairs (m : List (String × List String))
    (hlat : ∀ kv ∈ m, pairLatin1 kv)
    (hvne : ∀ kv ∈ m, ∀ v ∈ kv.2, v ≠ "") :
    List.filterMap segParse (encPairs m) = flatPairs m := by
  induction m with
  | nil => rfl
  | cons kv rest ih =>
    rcases kv with ⟨k, vs⟩
    show List.filterMap segParse
        (vs.map (fun v => quote_plus k.data ++ '=' :: quote_plus v.data) ++ encPairs rest)
      = vs.map (fun v => (k, v)) ++ flatPairs rest
    rw [List.filterMap_append]
    rw [filterMap_segParse_enc k vs (hlat (k, vs) (List.mem_cons_self _ _)).1
      (fun v hvv => ⟨(hlat (k, vs) (List.mem_cons_self _ _)).2 v hvv,
        hvne (k, vs) (List.mem_cons_self _ _) v hvv⟩)]
    rw [ih (fun x hx => hlat x (List.mem_cons_of_mem _ hx))
      (fun x hx => hvne x (List.mem_cons_of_mem _ hx))]

theorem parse_qsl_urlencode (m : List (String × List String)) (hm : m ≠ [])
    (hvals : ∀ kv ∈ m, kv.2 ≠ [])
    (hlat : ∀ kv ∈ m, pairLatin1 kv)
    (hvne : ∀ kv ∈ m, ∀ v ∈ kv.2, v ≠ "") :
    parse_qsl (urlencode m).data = flatPairs m := by
  show List.filterMap segParse (splitAmp (joinAmp (encPairs m))) = flatPairs m
  rw [splitAmp_joinAmp (encPairs m) (encPairs_ne_nil m hm hvals) (encPairs_no_amp m)]
  exact filterMap_encPairs m hlat hvne

theorem keysOf_cons (k : String) (vs : List String) (rest : List (String × List String)) :
    keysOf ((k, vs) :: rest) = k :: keysOf rest := rfl

theorem addPair_not_mem (done : List (String × List String)) (k v : String)
    (h : k ∉ keysOf done) : addPair done (k, v) = done ++ [(k, [v])] := by
  induction done with
  | nil => rfl
  | cons kv0 rest ih =>
    rcases kv0 with ⟨k0, vs0⟩
    rw [keysOf_cons] at h
    have hk : ¬k0 = k := fun hh => h (hh ▸ List.mem_cons_self _ _)
    have hr : k ∉ keysOf rest := fun hh => h (List.mem_cons_of_mem _ hh)
    show (if k0 = k then (k0, vs0 ++ [v]) :: rest else (k0, vs0) :: addPair rest (k, v))
        = (k0, vs0) :: rest ++ [(k, [v])]
    rw [if_neg hk, ih hr]
    rfl

theorem addPair_at_end (done : List (String × List String)) (k : String)
    (vs0 : List String) (v : String) (h : k ∉ keysOf done) :
    addPair (done ++ [(k, vs0)]) (k, v) = done ++ [(k, vs0 ++ [v])] := by
  induction done with
  | nil => simp [addPair]
  | cons kv0 rest ih =>
    rcases kv0 with ⟨k0, vsx⟩
    rw [keysOf_cons] at h
    have hk : ¬k0 = k := fun hh => h (hh ▸ List.mem_cons_self _ _)
    have hr : k ∉ keysOf rest := fun hh => h (List.mem_cons_of_mem _ hh)
    show (if k0 = k then (k0, vsx ++ [v]) :: (rest ++ [(k, vs0)])
          else (k0, vsx) :: addPair (rest ++ [(k, vs0)]) (k, v))
        = (k0, vsx) :: (rest ++ [(k, vs0 ++ [v])])
    rw [if_neg hk, ih hr]

theorem foldl_addPair_tail (done : List (String × List String)) (k : String)
    (vs acc : List String) (h : k ∉ keysOf done) :
    List.foldl addPair (done ++ [(k, acc)]) (vs.map (fun v => (k, v)))
      = done ++ [(k, acc ++ vs)] := by
  induction vs generalizing acc with
  | nil => simp
  | cons v vtl ih =>
    simp only [List.map_cons, List.foldl_cons]
    rw [addPair_at_end done k acc v h, ih (acc ++ [v])]
    simp

theorem foldl_addPair_flat : ∀ (m : List (String × List String))
    (done : List (String × List String)),
    (keysOf m).Nodup → (∀ a ∈ keysOf m, a ∉ keysOf done) → (∀ kv ∈ m, kv.2 ≠ []) →
    List.foldl addPair done (flatPairs m) = done ++ m := by
  intro m
  induction m with
  | nil =>
    intro done _ _ _
    simp [flatPairs]
  | cons kv rest ih =>
    intro done hnd hdisj hvals
    rcases kv with ⟨k, vs⟩
    cases vs with
    | nil => exact absurd rfl (hvals (k, []) (List.mem_cons_self _ _))
    | cons v0 vtl =>
      have hk : k ∉ keysOf done := hdisj k (by rw [keysOf_cons]; exact List.mem_cons_self _ _)
      show List.foldl addPair done
          ((v0 :: vtl).map (fun v => (k, v)) ++ flatPairs rest) = _
      rw [List.foldl_append, List.map_cons, List.foldl_cons]
      rw [addPair_not_mem done k v0 hk]
      rw [show List.foldl addPair (done ++ [(k, [v0])]) (vtl.map (fun v => (k, v)))
          = done ++ [(k, [v0] ++ vtl)] from foldl_addPair_tail done k vtl [v0] hk]
      rw [keysOf_cons] at hnd hdisj
      have hknr : k ∉ keysOf rest := (List.nodup_cons.1 hnd).1
      rw [ih (done ++ [(k, [v0] ++ vtl)]) (List.nodup_cons.1 hnd).2 ?disj
        (fun x hx => hvals x (List.mem_cons_of_mem _ hx))]
      · simp
      case disj =>
        intro a ha
        rw [show keysOf (done ++ [(k, [v0] ++ vtl)]) = keysOf done ++ [k] from by
          simp [keysOf]]
        rw [List.mem_append, List.mem_singleton]
        rintro (hc | rfl)
        · exact hdisj a (List.mem_cons_of_mem _ ha) hc
        · exact hknr ha

theorem addPair_keys (done : List (String × List String)) (k v : String) :
    keysOf (addPair done (k, v))
      = if k ∈ keysOf done then keysOf done else keysOf done ++ [k] := by
  induction done with
  | nil => simp [addPair, keysOf]
  | cons kv0 rest ih =>
    rcases kv0 with ⟨k0, vs0⟩
    by_cases h0 : k0 = k
    · subst h0
      rw [show addPair ((k0, vs0) :: rest) (k0, v) = (k0, vs0 ++ [v]) :: rest from by
        simp [addPair]]
      rw [keysOf_cons, keysOf_cons]
      rw [if_pos (List.mem_cons_self _ _)]
    · rw [show addPair ((k0, vs0) :: rest) (k, v) = (k0, vs0) :: addPair rest (k, v) from by
        simp [addPair, h0]]
      rw [keysOf_cons, keysOf_cons, ih]
      by_cases hm : k ∈ keysOf rest
      · rw [if_pos hm, if_pos (List.mem_cons_of_mem _ hm)]
      · rw [if_neg hm, if_neg (by
          rw [List.mem_cons]
          rintro (rfl | hc)
          · exact h0 rfl
          · exact hm hc)]
        rfl

theorem foldl_addPair_nodup (l : List (String × String)) :
    ∀ (done : List (String × List String)), (keysOf done).Nodup →
    (keysOf (List.foldl addPair done l)).Nodup := by
  induction l with
  | nil =>
    intro done h
    simpa using h
  | cons p rest ih =>
    intro done h
    rcases p with ⟨k, v⟩
    show (keysOf (List.foldl addPair (addPair done (k, v)) rest)).Nodup
    apply ih
    rw [addPair_keys]
    split_ifs with hm
    · exact h
    · exact List.Nodup.append h (List.nodup_singleton k)
        (fun a ha hb => hm ((List.mem_singleton.1 hb) ▸ ha))

theorem addPair_vals_ne (done : List (String × List String)) (k v : String)
    (h : ∀ kv ∈ done, kv.2 ≠ []) : ∀ kv ∈ addPair done (k, v), kv.2 ≠ [] := by
  induction done with
  | nil =>
    intro kv hkv
    simp only [addPair, List.mem_singleton] at hkv
    subst hkv
    simp
  | cons kv0 rest ih =>
    rcases kv0 with ⟨k0, vs0⟩
    intro kv hkv
    by_cases h0 : k0 = k
    · rw [show addPair ((k0, vs0) :: rest) (k, v) = (k0, vs0 ++ [v]) :: rest from by
        simp [addPair, h0]] at hkv
      rcases List.mem_cons.1 hkv with rfl | hkv
      · simp
      · exact h kv (List.mem_cons_of_mem _ hkv)
    · rw [show addPair ((k0, vs0) :: rest) (k, v) = (k0, vs0) :: addPair rest (k, v) from by
        simp [addPair, h0]] at hkv
      rcases List.mem_cons.1 hkv with rfl | hkv
      · exact h (k0, vs0) (List.mem_cons_self _ _)
      · exact ih (fun x hx => h x (List.mem_cons_of_mem _ hx)) kv hkv

theorem foldl_addPair_vals_ne (l : List (String × String)) :
    ∀ (done : List (String × List String)), (∀ kv ∈ done, kv.2 ≠ []) →
    ∀ kv ∈ List.foldl addPair done l, kv.2 ≠ [] := by
  induction l with
  | nil =>
    intro done h kv hkv
    exact h kv hkv
  | cons p rest ih =>
    intro done h kv hkv
    rcases p with ⟨pk, pv⟩
    exact ih (addPair done (pk, pv)) (addPair_vals_ne done pk pv h) kv hkv

theorem addPair_val_src (done : List (String × List String)) (k v : String) :
    ∀ kv ∈ addPair done (k, v), ∀ x ∈ kv.2,
      (∃ kv0 ∈ done, x ∈ kv0.2) ∨ x = v := by
  induction done with
  | nil =>
    intro kv hkv x hx
    simp only [addPair, List.mem_singleton] at hkv
    subst hkv
    simp only [List.mem_singleton] at hx
    exact Or.inr hx
  | cons kv0 rest ih =>
    rcases kv0 with ⟨k0, vs0⟩
    intro kv hkv x hx
    by_cases h0 : k0 = k
    · rw [show addPair ((k0, vs0) :: rest) (k, v) = (k0, vs0 ++ [v]) :: rest from by
        simp [addPair, h0]] at hkv
      rcases List.mem_cons.1 hkv with rfl | hkv
      · rcases List.mem_append.1 hx with hx | hx
        · exact Or.inl ⟨(k0, vs0), List.mem_cons_self _ _, hx⟩
        · exact Or.inr (List.mem_singleton.1 hx)
      · exact Or.inl ⟨kv, List.mem_cons_of_mem _ hkv, hx⟩
    · rw [show addPair ((k0, vs0) :: rest) (k, v) = (k0, vs0) :: addPair rest (k, v) from by
        simp [addPair, h0]] at hkv
      rcases List.mem_cons.1 hkv with rfl | hkv
      · exact Or.inl ⟨(k0, vs0), List.mem_cons_self _ _, hx⟩
      · rcases ih kv hkv x hx with ⟨kv1, hkv1, hx1⟩ | hv
        · exact Or.inl ⟨kv1, List.mem_cons_of_mem _ hkv1, hx1⟩
        · exact Or.inr hv

theorem addPair_key_src (done : List (String × List String)) (k v : String) :
    ∀ kv ∈ addPair done (k, v), kv.1 ∈ keysOf done ∨ kv.1 = k := by
  intro kv hkv
  have h := addPair_keys done k v
  have hmem : kv.1 ∈ keysOf (addPair done (k, v)) := List.mem_map_of_mem Prod.fst hkv
  rw [h] at hmem
  split_ifs at hmem with hm
  · exact Or.inl hmem
  · rcases List.mem_append.1 hmem with hc | hc
    · exact Or.inl hc
    · exact Or.inr (List.mem_singleton.1 hc)

theorem foldl_addPair_val_src (l : List (String × String)) :
    ∀ (done : List (String × List String)),
    ∀ kv ∈ List.foldl addPair done l, ∀ x ∈ kv.2,
      (∃ kv0 ∈ done, x ∈ kv0.2) ∨ ∃ kk, (kk, x) ∈ l := by
  induction l with
  | nil =>
    intro done kv hkv x hx
    exact Or.inl ⟨kv, hkv, hx⟩
  | cons p rest ih =>
    intro done kv hkv x hx
    rcases p with ⟨pk, pv⟩
    rcases ih (addPair done (pk, pv)) kv hkv x hx with ⟨kv0, hkv0, hx0⟩ | ⟨kk, hkk⟩
    · rcases addPair_val_src done pk pv kv0 hkv0 x hx0 with ⟨kv1, hkv1, hx1⟩ | rfl
      · exact Or.inl ⟨kv1, hkv1, hx1⟩
      · exact Or.inr ⟨pk, List.mem_cons_self _ _⟩
    · exact Or.inr ⟨kk, List.mem_cons_of_mem _ hkk⟩

theorem foldl_addPair_key_src (l : List (String × String)) :
    ∀ (done : List (String × List String)),
    ∀ kv ∈ List.foldl addPair done l, kv.1 ∈ keysOf done ∨ ∃ x, (kv.1, x) ∈ l := by
  induction l with
  | nil =>
    intro done kv hkv
    exact Or.inl (List.mem_map_of_mem Prod.fst hkv)
  | cons p rest ih =>
    intro done kv hkv
    rcases p with ⟨pk, pv⟩
    rcases ih (addPair done (pk, pv)) kv hkv with hk | ⟨x, hx⟩
    · rw [addPair_keys] at hk
      split_ifs at hk with hm
      · exact Or.inl hk
      · rcases List.mem_append.1 hk with hc | hc
        · exact Or.inl hc
        · rw [List.mem_singleton] at hc
          refine Or.inr ⟨pv, ?_⟩
          rw [hc]
          exact List.mem_cons_self _ _
    · exact Or.inr ⟨x, List.mem_cons_of_mem _ hx⟩

theorem parse_qs_nodup (q : List Char) : (keysOf (parse_qs q)).Nodup :=
  foldl_addPair_nodup (parse_qsl q) [] (by simp [keysOf])

theorem parse_qs_vals_ne (q : List Char) : ∀ kv ∈ parse_qs q, kv.2 ≠ [] :=
  foldl_addPair_vals_ne (parse_qsl q) [] (fun kv hkv => absurd hkv (List.not_mem_nil kv))

theorem parse_qs_vne (q : List Char) : ∀ kv ∈ parse_qs q, ∀ v ∈ kv.2, v ≠ "" := by
  intro kv hkv v hv
  rcases foldl_addPair_val_src (parse_qsl q) [] kv hkv v hv with ⟨kv0, hkv0, _⟩ | ⟨kk, hkk⟩
  · cases hkv0
  · exact parse_qsl_vne q (kk, v) hkk

theorem setParam_src (m : List (String × List String)) (k : String) (vs : List String) :
    ∀ kv ∈ setParam m k vs, kv ∈ m ∨ kv = (k, vs) := by
  induction m with
  | nil =>
    intro kv hkv
    simp only [setParam, List.mem_singleton] at hkv
    exact Or.inr hkv
  | cons kv0 rest ih =>
    rcases kv0 with ⟨k0, vs0⟩
    intro kv hkv
    by_cases h0 : k0 = k
    · rw [show setParam ((k0, vs0) :: rest) k vs = (k0, vs) :: rest from by
        simp [setParam, h0]] at hkv
      rcases List.mem_cons.1 hkv with rfl | hkv
      · subst h0
        exact Or.inr rfl
      · exact Or.inl (List.mem_cons_of_mem _ hkv)
    · rw [show setParam ((k0, vs0) :: rest) k vs = (k0, vs0) :: setParam rest k vs from by
        simp [setParam, h0]] at hkv
      rcases List.mem_cons.1 hkv with rfl | hkv
      · exact Or.inl (List.mem_cons_self _ _)
      · rcases ih kv hkv with hm | hm
        · exact Or.inl (List.mem_cons_of_mem _ hm)
        · exact Or.inr hm

theorem setParam_keys (m : List (String × List String)) (k : String) (vs : List String) :
    keysOf (setParam m k vs)
      = if k ∈ keysOf m then keysOf m else keysOf m ++ [k] := by
  induction m with
  | nil => simp [setParam, keysOf]
  | cons kv0 rest ih =>
    rcases kv0 with ⟨k0, vs0⟩
    by_cases h0 : k0 = k
    · subst h0
      rw [show setParam ((k0, vs0) :: rest) k0 vs = (k0, vs) :: rest from by
        simp [setParam]]
      rw [keysOf_cons, keysOf_cons, if_pos (List.mem_cons_self _ _)]
    · rw [show setParam ((k0, vs0) :: rest) k vs = (k0, vs0) :: setParam rest k vs from by
        simp [setParam, h0]]
      rw [keysOf_cons, keysOf_cons, ih]
      by_cases hm : k ∈ keysOf rest
      · rw [if_pos hm, if_pos (List.mem_cons_of_mem _ hm)]
      · rw [if_neg hm, if_neg (by
          rw [List.mem_cons]
          rintro (rfl | hc)
          · exact h0 rfl
          · exact hm hc)]
        rfl

theorem setParam_ne_nil (m : List (String × List String)) (k : String) (vs : List String) :
    setParam m k vs ≠ [] := by
  cases m with
  | nil => simp [setParam]
  | cons kv0 rest =>
    rcases kv0 with ⟨k0, vs0⟩
    show (if k0 = k then (k0, vs) :: rest else (k0, vs0) :: setParam rest k vs) ≠ []
    split_ifs <;> simp

/-- Re-parsing the query produced by `urlencode(params, doseq=True)`
recovers exactly the parameter dict, for well-formed single-byte
parameter dicts. -/
theorem parse_qs_urlencode (m : List (String × List String)) (hm : m ≠ [])
    (hnd : (keysOf m).Nodup)
    (hvals : ∀ kv ∈ m, kv.2 ≠ [])
    (hlat : ∀ kv ∈ m, pairLatin1 kv)
    (hvne : ∀ kv ∈ m, ∀ v ∈ kv.2, v ≠ "") :
    parse_qs (urlencode m).data = m := by
  unfold parse_qs
  rw [parse_qsl_urlencode m hm hvals hlat hvne]
  have h := foldl_addPair_flat m [] hnd (by simp [keysOf]) hvals
  simpa using h

theorem chromePhase_oe_none (env : Env) (oe : Option Exc) (base : Nat) (evs1 : List Ev)
    (h1 : ensureOkWithin3 env = true) (hc : chromePhase env = (oe, base, evs1)) : oe = none := by
  have h := (chromePhase_none_iff env).2 h1
  rw [hc] at h
  exact h

theorem connectPhase_oc_none (env : Env) (base : Nat) (oc : Option Exc) (evs2 : List Ev)
    (h2 : connectOkWithin3 env = true) (hc : connectPhase env base = (oc, evs2)) : oc = none := by
  have h := (connectPhase_none_iff env base).2 h2
  rw [hc] at h
  exact h

/-- When all three startup attempts fail the endpoint answers HTTP 500
with the message of line 252, unwrapped (it is raised before the outer
try). -/
theorem create_order_chrome_fail (env : Env) (req : OrderRequest)
    (h : ensureOkWithin3 env = false) :
    (create_order env req).outcome = Outcome.httpError 500 "Could not ensure Chrome is running" := by
  have hs := chromePhase_some env h
  simp only [create_order]
  rcases h1 : chromePhase env with ⟨oe, base, evs1⟩
  rw [h1] at hs
  simp only at hs
  subst hs
  rfl

/-- When the three connect attempts fail, the HTTP 500 of line 282 is
caught at 415 and wrapped. -/
theorem create_order_connect_fail (env : Env) (req : OrderRequest)
    (h1 : ensureOkWithin3 env = true) (h2 : connectOkWithin3 env = false) :
    (create_order env req).outcome
      = Outcome.httpError 500
          ("Browser automation error: "
            ++ excStr (Exc.http 500 "Failed to connect to Chrome after 3 attempts")) := by
  simp only [create_order]
  rcases hc : chromePhase env with ⟨oe, base, evs1⟩
  obtain rfl := chromePhase_oe_none env oe base evs1 h1 hc
  dsimp only
  rcases hcp : connectPhase env base with ⟨oc, evs2⟩
  have hsome := connectPhase_some env base h2
  rw [hcp] at hsome
  simp only at hsome
  subst hsome
  rfl

theorem cartPhase_some (env : Env) (h : (env.cartGotoOk && env.cartWaitOk) = false) :
    (cartPhase env).res
      = some (Exc.http 400 ("Error during checkout: " ++ excStr (Exc.http 400 "Failed to open cart"))) := by
  unfold cartPhase
  rw [show open_cart env.pageUrl env.cartGotoOk env.cartWaitOk = false from by
    simpa [open_cart] using h]
  rfl

/-- A failing product iteration surfaces as a wrapped HTTP 500 and the
product lands in `failed_products`. -/
theorem create_order_product_fail (env : Env) (req : OrderRequest) (p : String) (rest : List String)
    (hp : req.products = p :: rest)
    (h1 : ensureOkWithin3 env = true) (h2 : connectOkWithin3 env = true)
    (h3 : happyProduct0 env = false) :
    (∃ e, (create_order env req).outcome
        = Outcome.httpError 500 ("Browser automation error: " ++ excStr e)) ∧
      p ∈ (create_order env req).failed := by
  simp only [create_order]
  rcases hc : chromePhase env with ⟨oe, base, evs1⟩
  obtain rfl := chromePhase_oe_none env oe base evs1 h1 hc
  dsimp only
  rcases hcp : connectPhase env base with ⟨oc, evs2⟩
  obtain rfl := connectPhase_oc_none env base oc evs2 h2 hcp
  dsimp only
  rw [hp]
  rcases hres : (runProduct env 0 p env.orderId).res with e | _
  · simp only [productLoop, hres]
    refine ⟨⟨e, rfl⟩, ?_⟩
    have hne : (runProduct env 0 p env.orderId).res ≠ IterRes.exit := by
      simp [hres]
    have hf := runProduct_failed_of_exc env p env.orderId hne
    simp [List.mem_replicate]
    omega
  · exfalso
    rw [runProduct_exit_iff] at hres
    rw [hres] at h3
    cases h3

/-- The empty-products run with a failing `open_cart`. -/
theorem create_order_cart_fail (env : Env) (req : OrderRequest)
    (hp : req.products = [])
    (h1 : ensureOkWithin3 env = true) (h2 : connectOkWithin3 env = true)
    (h3 : (env.cartGotoOk && env.cartWaitOk) = false) :
    (create_order env req).outcome
      = Outcome.httpError 500
          ("Browser automation error: "
            ++ excStr (Exc.http 400 ("Error during checkout: " ++ excStr (Exc.http 400 "Failed to open cart")))) := by
  simp only [create_order]
  rcases hc : chromePhase env with ⟨oe, base, evs1⟩
  obtain rfl := chromePhase_oe_none env oe base evs1 h1 hc
  dsimp only
  rcases hcp : connectPhase env base with ⟨oc, evs2⟩
  obtain rfl := connectPhase_oc_none env base oc evs2 h2 hcp
  dsimp only
  rw [hp]
  simp only [productLoop]
  rw [cartPhase_some env h3]
  rfl

theorem productLoop_done_iff (env : Env) (oid : String) (products : List String) :
    (productLoop env oid products).res = LoopRes.done ↔ products = [] := by
  cases products with
  | nil => simp [productLoop]
  | cons p rest =>
    simp only [productLoop]
    constructor
    · intro h
      split at h <;> simp_all
    · intro h
      simp at h

theorem productLoop_evs_kind (env : Env) (oid : String) (products : List String) :
    (productLoop env oid products).evs.all isLoopKind = true := by
  cases products with
  | nil => rfl
  | cons p rest =>
    simp only [productLoop]
    split <;> exact runProduct_evs_kind env p oid

theorem cartPhase_filter_open (env : Env) :
    (cartPhase env).evs.filter isOpenCartEv = [Ev.openCartEv (open_cart_url env.pageUrl)] := by
  unfold cartPhase
  split_ifs <;> rfl

theorem create_order_filter_open_of_ne (env : Env) (req : OrderRequest)
    (hne : req.products ≠ []) :
    (create_order env req).trace.filter isOpenCartEv = [] := by
  simp only [create_order]
  rcases h1 : chromePhase env with ⟨oe, base, evs1⟩
  have hc1 : evs1.filter isOpenCartEv = [] := by
    have h := chromePhase_filter env isOpenCartEv (fun _ _ => rfl)
    rw [h1] at h
    exact h
  cases oe with
  | some e => simpa using hc1
  | none =>
    dsimp only
    rcases h2 : connectPhase env base with ⟨oc, evs2⟩
    have hc2 : evs2.filter isOpenCartEv = [] := by
      have h := connectPhase_filter env base isOpenCartEv (fun _ _ => rfl) (fun _ _ => rfl)
      rw [h2] at h
      exact h
    cases oc with
    | some e => simp [List.filter_append, hc1, hc2]
    | none =>
      have hlo : (productLoop env env.orderId req.products).evs.filter isOpenCartEv = [] :=
        productLoop_filter env env.orderId req.products isOpenCartEv
          (fun p => runProduct_filter_open env p env.orderId)
      cases h3 : (productLoop env env.orderId req.products).res with
      | exc e => simp [h3, List.filter_append, hc1, hc2, hlo]
      | exit => simp [h3, List.filter_append, hc1, hc2, hlo]
      | done => exact absurd ((productLoop_done_iff env env.orderId req.products).1 h3) hne

theorem create_order_filter_open_of_empty (env : Env) (req : OrderRequest)
    (h1 : ensureOkWithin3 env = true) (h2 : connectOkWithin3 env = true)
    (hps : req.products = []) :
    (create_order env req).trace.filter isOpenCartEv
      = [Ev.openCartEv (open_cart_url env.pageUrl)] := by
  simp only [create_order]
  rcases hc : chromePhase env with ⟨oe, base, evs1⟩
  obtain rfl := chromePhase_oe_none env oe base evs1 h1 hc
  have hc1 : evs1.filter isOpenCartEv = [] := by
    have h := chromePhase_filter env isOpenCartEv (fun _ _ => rfl)
    rw [hc] at h
    exact h
  dsimp only
  rcases hcp : connectPhase env base with ⟨oc, evs2⟩
  obtain rfl := connectPhase_oc_none env base oc evs2 h2 hcp
  have hc2 : evs2.filter isOpenCartEv = [] := by
    have h := connectPhase_filter env base isOpenCartEv (fun _ _ => rfl) (fun _ _ => rfl)
    rw [hcp] at h
    exact h
  dsimp only
  rw [hps]
  simp only [productLoop]
  cases h4 : (cartPhase env).res with
  | some e => simp [List.filter_append, hc1, hc2, cartPhase_filter_open]
  | none => simp [List.filter_append, hc1, hc2, cartPhase_filter_open]

theorem create_order_filter_search (env : Env) (req : OrderRequest) :
    (create_order env req).trace.filter isSearchEv = [] ∨
      ∃ p rest, req.products = p :: rest ∧
        (create_order env req).trace.filter isSearchEv = [Ev.searchNav 0 p] := by
  simp only [create_order]
  rcases h1 : chromePhase env with ⟨oe, base, evs1⟩
  have hc1 : evs1.filter isSearchEv = [] := by
    have h := chromePhase_filter env isSearchEv (fun _ _ => rfl)
    rw [h1] at h
    exact h
  cases oe with
  | some e =>
    left
    simpa using hc1
  | none =>
    dsimp only
    rcases h2 : connectPhase env base with ⟨oc, evs2⟩
    have hc2 : evs2.filter isSearchEv = [] := by
      have h := connectPhase_filter env base isSearchEv (fun _ _ => rfl) (fun _ _ => rfl)
      rw [h2] at h
      exact h
    cases oc with
    | some e =>
      left
      simp [List.filter_append, hc1, hc2]
    | none =>
      rcases hps : req.products with _ | ⟨p, rest⟩
      · left
        simp only [productLoop]
        cases h4 : (cartPhase env).res with
        | some e => simp [List.filter_append, hc1, hc2, cartPhase_filter_search]
        | none => simp [List.filter_append, hc1, hc2, cartPhase_filter_search]
      · right
        refine ⟨p, rest, rfl, ?_⟩
        have hrp := runProduct_filter_search env p env.orderId
        cases h3 : (runProduct env 0 p env.orderId).res with
        | exc e => simp [productLoop, h3, List.filter_append, hc1, hc2, hrp]
        | exit => simp [productLoop, h3, List.filter_append, hc1, hc2, hrp]

theorem create_order_trace_decomp (env : Env) (req : OrderRequest) :
    ∃ t1 t2 t3 t4, (create_order env req).trace = t1 ++ t2 ++ t3 ++ t4 ∧
      t1.all isChromeKind = true ∧ t2.all isConnectKind = true ∧
      t3.all isLoopKind = true ∧ t4.all isCartKind = true := by
  simp only [create_order]
  rcases h1 : chromePhase env with ⟨oe, base, evs1⟩
  have hk1 : evs1.all isChromeKind = true := by
    have h := chromePhase_evs_kind env
    rw [h1] at h
    exact h
  cases oe with
  | some e => exact ⟨evs1, [], [], [], by simp, hk1, rfl, rfl, rfl⟩
  | none =>
    dsimp only
    rcases h2 : connectPhase env base with ⟨oc, evs2⟩
    have hk2 : evs2.all isConnectKind = true := by
      have h := connectPhase_evs_kind env base
      rw [h2] at h
      exact h
    cases oc with
    | some e => exact ⟨evs1, evs2, [], [], by simp, hk1, hk2, rfl, rfl⟩
    | none =>
      have hk3 := productLoop_evs_kind env env.orderId req.products
      cases h3 : (productLoop env env.orderId req.products).res with
      | exc e =>
        exact ⟨evs1, evs2, (productLoop env env.orderId req.products).evs, [],
          by simp, hk1, hk2, hk3, rfl⟩
      | exit =>
        exact ⟨evs1, evs2, (productLoop env env.orderId req.products).evs, [],
          by simp, hk1, hk2, hk3, rfl⟩
      | done =>
        cases h4 : (cartPhase env).res with
        | some e =>
          exact ⟨evs1, evs2, (productLoop env env.orderId req.products).evs,
            (cartPhase env).evs, rfl, hk1, hk2, hk3, cartPhase_evs_kind env⟩
        | none =>
          exact ⟨evs1, evs2, (productLoop env env.orderId req.products).evs,
            (cartPhase env).evs, rfl, hk1, hk2, hk3, cartPhase_evs_kind env⟩

theorem create_order_search_mem (env : Env) (req : OrderRequest) (i : Nat) (pr : String)
    (h : Ev.searchNav i pr ∈ (create_order env req).trace) :
    i = 0 ∧ req.products.head? = some pr := by
  have hmem : Ev.searchNav i pr ∈ (create_order env req).trace.filter isSearchEv :=
    List.mem_filter.2 ⟨h, rfl⟩
  rcases create_order_filter_search env req with hf | ⟨p, rest, hps, hf⟩
  · rw [hf] at hmem
    cases hmem
  · rw [hf] at hmem
    simp only [List.mem_singleton, Ev.searchNav.injEq] at hmem
    obtain ⟨hi, hp⟩ := hmem
    subst hi
    subst hp
    rw [hps]
    exact ⟨rfl, rfl⟩

/-! ## Claim theorems -/

/-- C1: the claim that every POST /order request yields either the
success payload or an HTTP error fails on the code: a fully
cooperative run of one product terminates in the `sys.exit()` of line
363 (a `SystemExit`, not an HTTP response), a run with an empty
product list returns the bare tuple of line 410, and the success
payload of lines 378-386 is unreachable on every run. -/
theorem C1_endpoint_outcomes :
    (create_order happyEnv ⟨["milk"], some "user@upi"⟩).outcome = Outcome.sysExit ∧
    (create_order happyEnv ⟨[], some "user@upi"⟩).outcome
      = Outcome.tupleRet "20250101_000000" [] [] ∧
    ∀ (env : Env) (req : OrderRequest), isSuccess (create_order env req).outcome = false :=
  ⟨rfl, rfl, isSuccess_create_order⟩

/-- C2: the claim that the endpoint fills the UPI id and then clicks
Verify and Pay fails on the code: on the fully cooperative run the
process exits right after selecting the UPI payment method (line 363),
and no run ever emits a fill or a Verify-and-Pay click; the helper
`enter_upi_and_pay` would do fill-then-click but is never reached. -/
theorem C2_upi_never_filled :
    (create_order happyEnv ⟨["milk"], some "user@upi"⟩).outcome = Outcome.sysExit ∧
    Ev.selectUpi 0 ∈ (create_order happyEnv ⟨["milk"], some "user@upi"⟩).trace ∧
    (∀ (env : Env) (req : OrderRequest), (create_order env req).trace.filter isFillEv = []) ∧
    (∀ (env : Env) (req : OrderRequest), (create_order env req).trace.filter isVerifyClickEv = []) ∧
    enter_upi_and_pay happyUpiEnv "user@upi" = (true, [Ev.fillUpi "user@upi", Ev.clickVerifyPay]) :=
  ⟨rfl, by decide, trace_no_fill, trace_no_verify, rfl⟩

/-- C3: every run on which some modelled external step fails
terminally (`happyPath` is false) ends in an HTTP error with a
non-empty human-readable detail. -/
theorem C3_failures_surface_as_http (env : Env) (req : OrderRequest)
    (h : happyPath env req = false) :
    ∃ d, (create_order env req).outcome = Outcome.httpError 500 d ∧ d ≠ "" := by
  by_cases h1 : ensureOkWithin3 env
  · by_cases h2 : connectOkWithin3 env
    · rcases hps : req.products with _ | ⟨p, rest⟩
      · have hcart : (env.cartGotoOk && env.cartWaitOk) = false := by
          simp [happyPath, h1, h2, hps] at h
          simpa using h
        exact ⟨_, create_order_cart_fail env req hps h1 h2 hcart,
          append_ne_emptyStr _ _ (by decide)⟩
      · have h3 : happyProduct0 env = false := by
          simp [happyPath, h1, h2, hps] at h
          simpa using h
        obtain ⟨⟨e, ho⟩, _⟩ := create_order_product_fail env req p rest hps h1 h2 h3
        exact ⟨_, ho, append_ne_emptyStr _ _ (by decide)⟩
    · exact ⟨_, create_order_connect_fail env req h1 (by simpa using h2),
        append_ne_emptyStr _ _ (by decide)⟩
  · exact ⟨_, create_order_chrome_fail env req (by simpa using h1), by decide⟩

theorem C3_witness :
    happyPath notFoundEnv ⟨["milk"], none⟩ = false ∧
    ∃ d, (create_order notFoundEnv ⟨["milk"], none⟩).outcome = Outcome.httpError 500 d ∧ d ≠ "" :=
  ⟨by decide, C3_failures_surface_as_http notFoundEnv ⟨["milk"], none⟩ (by decide)⟩

/-- C4 counterexample: on a fully cooperative run with two products,
only the first product is ever searched, the open-cart step never
happens, and the run ends in the `sys.exit()` — refuting the claimed
order "for each requested product (search, add-to-cart, pay), and
finally open the cart" on runs with a non-empty product list. -/
theorem C4_counterexample :
    (create_order happyEnv ⟨["a", "b"], none⟩).outcome = Outcome.sysExit ∧
    (create_order happyEnv ⟨["a", "b"], none⟩).trace.filter isSearchEv = [Ev.searchNav 0 "a"] ∧
    (create_order happyEnv ⟨["a", "b"], none⟩).trace.filter isOpenCartEv = [] :=
  ⟨rfl, rfl, rfl⟩

/-- C4 (amended): every trace decomposes as ensure-phase events, then
connect-phase events (which may repeat ensure-browser), then
first-iteration loop events, then cart-phase events, in this order;
the open-cart step runs only when the product list is empty (and then
it follows the loop and happens exactly once on runs that reach it);
no product beyond the first is ever searched, and any search is for
the first product of the request. -/
theorem C4_amended_control_flow (env : Env) (req : OrderRequest) :
    (∃ t1 t2 t3 t4, (create_order env req).trace = t1 ++ t2 ++ t3 ++ t4 ∧
        t1.all isChromeKind = true ∧ t2.all isConnectKind = true ∧
        t3.all isLoopKind = true ∧ t4.all isCartKind = true) ∧
    (req.products ≠ [] → (create_order env req).trace.filter isOpenCartEv = []) ∧
    (ensureOkWithin3 env = true → connectOkWithin3 env = true → req.products = [] →
        (create_order env req).trace.filter isOpenCartEv
          = [Ev.openCartEv (open_cart_url env.pageUrl)]) ∧
    (create_order env req).trace.filter isLaterSearchEv = [] ∧
    ∀ i pr, Ev.searchNav i pr ∈ (create_order env req).trace →
      i = 0 ∧ req.products.head? = some pr :=
  ⟨create_order_trace_decomp env req,
   fun hne => create_order_filter_open_of_ne env req hne,
   fun h1 h2 hps => create_order_filter_open_of_empty env req h1 h2 hps,
   trace_no_later_search env req,
   fun i pr h => create_order_search_mem env req i pr h⟩

theorem C4_witness :
    ((create_order happyEnv ⟨["milk"], none⟩).trace.filter isOpenCartEv = []) ∧
    ((create_order happyEnv ⟨[], none⟩).trace.filter isOpenCartEv
      = [Ev.openCartEv (open_cart_url happyEnv.pageUrl)]) ∧
    (0 = 0 ∧ (OrderRequest.mk ["milk"] none).products.head? = some "milk") :=
  ⟨(C4_amended_control_flow happyEnv ⟨["milk"], none⟩).2.1 (by decide),
   (C4_amended_control_flow happyEnv ⟨[], none⟩).2.2.1 (by decide) (by decide) rfl,
   (C4_amended_control_flow happyEnv ⟨["milk"], none⟩).2.2.2.2 0 "milk" (by decide)⟩

/-- C5: when the first product's processing fails, the product is
recorded in `failed_products`, the whole request fails with an HTTP
error, and nothing else is attempted (no later product is ever
searched; no success payload exists). -/
theorem C5_product_failure_handling (env : Env) (req : OrderRequest) (p : String)
    (rest : List String) (hp : req.products = p :: rest)
    (h1 : ensureOkWithin3 env = true) (h2 : connectOkWithin3 env = true)
    (h3 : happyProduct0 env = false) :
    (∃ d, (create_order env req).outcome = Outcome.httpError 500 d) ∧
    p ∈ (create_order env req).failed ∧
    (create_order env req).trace.filter isLaterSearchEv = [] ∧
    isSuccess (create_order env req).outcome = false := by
  obtain ⟨⟨e, ho⟩, hmem⟩ := create_order_product_fail env req p rest hp h1 h2 h3
  exact ⟨⟨_, ho⟩, hmem, trace_no_later_search env req, isSuccess_create_order env req⟩

theorem C5_witness :
    ((⟨["milk"], none⟩ : OrderRequest).products = "milk" :: []) ∧
    ensureOkWithin3 notFoundEnv = true ∧ connectOkWithin3 notFoundEnv = true ∧
    happyProduct0 notFoundEnv = false ∧
    ((∃ d, (create_order notFoundEnv ⟨["milk"], none⟩).outcome = Outcome.httpError 500 d) ∧
      "milk" ∈ (create_order notFoundEnv ⟨["milk"], none⟩).failed ∧
      (create_order notFoundEnv ⟨["milk"], none⟩).trace.filter isLaterSearchEv = [] ∧
      isSuccess (create_order notFoundEnv ⟨["milk"], none⟩).outcome = false) :=
  ⟨rfl, by decide, by decide, by decide,
    C5_product_failure_handling notFoundEnv ⟨["milk"], none⟩ "milk" [] rfl
      (by decide) (by decide) (by decide)⟩

/-- C6: browser startup is bounded retry with backoff: the phase of
lines 246-253 calls `ensure_chrome_running` at most 3 times, each call
polls the debugging port at most 10 times in its startup wait loop,
and when every attempt fails the endpoint answers HTTP 500 rather
than looping. -/
theorem C6_bounded_startup_retry (env : Env) (req : OrderRequest) :
    (chromePhase env).2.1 ≤ 3 ∧
    (∀ ce : ChromeEnv, (ensure_chrome_running ce).2 ≤ 10) ∧
    (ensureOkWithin3 env = false →
      (create_order env req).outcome = Outcome.httpError 500 "Could not ensure Chrome is running") :=
  ⟨chromePhase_calls_le env, ensure_polls_le,
    fun h => create_order_chrome_fail env req h⟩

theorem C6_witness :
    ensureOkWithin3 noChromeEnv = false ∧
    (create_order noChromeEnv ⟨["milk"], none⟩).outcome
      = Outcome.httpError 500 "Could not ensure Chrome is running" :=
  ⟨by decide,
    (C6_bounded_startup_retry noChromeEnv ⟨["milk"], none⟩).2.2 (by decide)⟩

/-- C7: the request schema: `products` is a required list of strings,
`upi_id` an optional string; a body carrying only `products` validates
(the default UPI id fills in), a body with both fields validates, and
a body without `products` is rejected. -/
theorem C7_request_schema :
    (∀ ps : List String,
        validateOrderRequest (Json.obj [("products", Json.arr (ps.map Json.str))])
          = some ⟨ps, some "your.upi@provider"⟩) ∧
    (∀ (ps : List String) (u : String),
        validateOrderRequest
            (Json.obj [("products", Json.arr (ps.map Json.str)), ("upi_id", Json.str u)])
          = some ⟨ps, some u⟩) ∧
    validateOrderRequest (Json.obj []) = none := by
  refine ⟨fun ps => ?_, fun ps u => ?_, rfl⟩ <;>
    simp [validateOrderRequest, lookupKey, asStrList_map]

/-- C8: the claim that an omitted `upi_id` makes the order use and
report the default `"your.upi@provider"` fails on the code: validation
does yield the default, but the run exits at line 363 before any UPI
id is used, and no success payload (hence no `upi_id_used` field) is
ever produced. -/
theorem C8_default_upi_never_used :
    validateOrderRequest (Json.obj [("products", Json.arr [Json.str "milk"])])
      = some ⟨["milk"], some "your.upi@provider"⟩ ∧
    (create_order happyEnv ⟨["milk"], some "your.upi@provider"⟩).outcome = Outcome.sysExit ∧
    (∀ (env : Env) (req : OrderRequest), isSuccess (create_order env req).outcome = false) ∧
    ∀ (env : Env) (req : OrderRequest), (create_order env req).trace.filter isFillEv = [] :=
  ⟨rfl, rfl, isSuccess_create_order, trace_no_fill⟩

/-- C9 counterexample: for the current URL
`https://www.zeptonow.com/search?x=&y=1` the rebuilt cart URL is
`https://www.zeptonow.com/search?y=1&cart=open`: the blank-valued
parameter `x` of the current query is dropped (`parse_qs` with its
default `keep_blank_values=False` discards it), refuting "all other
parameters unchanged". -/
theorem C9_counterexample :
    open_cart_url ⟨"https", "www.zeptonow.com", "/search", "x=&y=1", ""⟩
      = "https://www.zeptonow.com/search?y=1&cart=open" ∧
    keysOf (parse_qs ("x=&y=1".data)) = ["y"] ∧
    keysOf (parse_qs ("y=1&cart=open".data)) = ["y", "cart"] :=
  ⟨rfl, rfl, rfl⟩

/-- C9 (amended): the cart URL keeps scheme, netloc and path, drops
the fragment, and its query — compared as decoded parameters — is the
current query's parameters with `cart` overwritten in place to the
single value `open` and all other non-blank parameters unchanged;
parameters with blank values (or names without `=`) are dropped by
`parse_qs` before re-encoding.  `open_cart` returns True when
navigation succeeds and False when a step raises.  Stated for queries
whose decoded parameters are single-byte — the boundary inside which
this byte-level codec model coincides with Python's. -/
theorem C9_open_cart_amended (u : Url) (g w : Bool)
    (hq : ∀ kv ∈ parse_qs u.query.data, pairLatin1 kv) :
    open_cart_url u
      = u.scheme ++ "://" ++ u.netloc ++ u.path ++ "?"
          ++ urlencode (setParam (parse_qs u.query.data) "cart" ["open"]) ∧
    parse_qs (urlencode (setParam (parse_qs u.query.data) "cart" ["open"])).data
      = setParam (parse_qs u.query.data) "cart" ["open"] ∧
    open_cart u g w = (g && w) := by
  refine ⟨rfl, ?_, rfl⟩
  apply parse_qs_urlencode
  · exact setParam_ne_nil _ _ _
  · rw [setParam_keys]
    split_ifs with hm
    · exact parse_qs_nodup u.query.data
    · exact List.Nodup.append (parse_qs_nodup _) (List.nodup_singleton _)
        (fun a ha hb => hm ((List.mem_singleton.1 hb) ▸ ha))
  · intro kv hkv
    rcases setParam_src _ _ _ kv hkv with hmm | rfl
    · exact parse_qs_vals_ne _ kv hmm
    · simp
  · intro kv hkv
    rcases setParam_src _ _ _ kv hkv with hmm | rfl
    · exact hq kv hmm
    · exact ⟨by decide, by decide⟩
  · intro kv hkv v hv
    rcases setParam_src _ _ _ kv hkv with hmm | rfl
    · exact parse_qs_vne _ kv hmm v hv
    · rw [List.mem_singleton] at hv
      subst hv
      decide

theorem C9_witness :
    (∀ kv ∈ parse_qs "a=1&cart=closed&b=2".data, pairLatin1 kv) ∧
    parse_qs (urlencode (setParam (parse_qs "a=1&cart=closed&b=2".data) "cart" ["open"])).data
      = setParam (parse_qs "a=1&cart=closed&b=2".data) "cart" ["open"] :=
  ⟨by decide,
    (C9_open_cart_amended ⟨"https", "www.zeptonow.com", "/search", "a=1&cart=closed&b=2", ""⟩
      true true (by decide)).2.1⟩

/-- C10: `handle_popups` never lets an exception reach its caller: for
every resolution of its waits, clicks and visibility checks it returns
normally. -/
theorem C10_handle_popups_never_raises (env : Nat → PopupSelEnv) :
    handle_popups env = Except.ok () := by
  unfold handle_popups
  rw [popupLoop_ok]
  rfl

end ZeptoModel
